import Mathlib

/-!
Verification of the `strict_hdds` storage-layout manager against its
natural-language specification.  The Python sources are shallowly embedded:
byte buffers become `List Nat` (each element one byte), `struct.pack` /
`struct.unpack` become explicit little-endian encoders and decoders, and
fallible code returns `Option` / `Except`.  Every definition is translated
from the repository sources (`util.py`, `core.py`, the layout modules);
definitions standing in for repository code that is not part of the source
snapshot are marked `Modelled from the spec:` in their doc comment.
-/

set_option maxRecDepth 100000

namespace StrictHdds

/-! ## Byte-level primitives (struct.pack / struct.unpack) -/

/-- Little-endian encoding of `n` into exactly `k` bytes
(`struct.pack "<Q"` for `k = 8`, `"<H"` for `k = 2`, ...). -/
def leBytes : (k : Nat) → (n : Nat) → List Nat
  | 0, _ => []
  | k + 1, n => n % 256 :: leBytes k (n / 256)

/-- `f.seek(off); f.read(k)`: the `k` bytes of `buf` starting at offset `off`
(shorter when the buffer ends first, as a short read would be). -/
def readBytes (buf : List Nat) (off k : Nat) : List Nat :=
  (buf.drop off).take k

/-- Read `k` bytes of `buf` starting at `off` as a little-endian number
(`struct.unpack_from "<Q"` etc.). -/
def leRead (buf : List Nat) (off k : Nat) : Nat :=
  (readBytes buf off k).foldr (fun b acc => acc * 256 + b) 0

/-- `struct.pack_into`: overwrite the bytes of `buf` at offset `off`
with `bs`, leaving everything else unchanged. -/
def packInto (buf : List Nat) (off : Nat) (bs : List Nat) : List Nat :=
  buf.take off ++ bs ++ buf.drop (off + bs.length)

@[simp] theorem leBytes_length (k n : Nat) : (leBytes k n).length = k := by
  induction k generalizing n with
  | zero => rfl
  | succ k ih => simp [leBytes, ih]

theorem leRead_append_of_length (bs rest : List Nat) (k : Nat)
    (h : bs.length = k) : leRead (bs ++ rest) 0 k = leRead bs 0 k := by
  simp [leRead, readBytes, List.take_append_of_le_length, h.ge]

theorem leRead_leBytes (k n : Nat) :
    leRead (leBytes k n) 0 k = n % 256 ^ k := by
  induction k generalizing n with
  | zero => simp [leRead, readBytes, leBytes, Nat.mod_one]
  | succ k ih =>
    have h1 : leRead (leBytes (k + 1) n) 0 (k + 1)
        = leRead (leBytes k (n / 256)) 0 k * 256 + n % 256 := by
      simp [leRead, readBytes, leBytes, List.take_succ_cons]
    rw [h1, ih, pow_succ', Nat.mod_mul]
    ring

/-! ## CRC-64 (crcmod predefined variants)

`bcacheMakeDevice` computes its superblock checksum with
`crcmod.predefined.Crc("crc-64-we")`.  Both the "WE" variant the code uses
and the "Jones" variant the spec names are embedded below, with the standard
catalog parameters (crcmod's predefined table):
  crc-64-we:    poly 0x42F0E1EBA9EA3693, not reflected, init and xorout all-ones
  crc-64-jones: poly 0xAD93D23594C935A9, reflected, init all-ones, xorout 0. -/

/-- One shift step of a non-reflected (MSB-first) CRC-64. -/
def crc64Step (poly crc : Nat) : Nat :=
  if crc / 2 ^ 63 % 2 = 1 then (crc * 2 % 2 ^ 64) ^^^ poly else crc * 2 % 2 ^ 64

/-- crcmod's `Crc.update` for the non-reflected `crc-64-we` register:
fold each byte in MSB-first. -/
def crc64weUpdate (crc : Nat) (data : List Nat) : Nat :=
  data.foldl
    (fun crc b => (crc64Step 0x42F0E1EBA9EA3693)^[8] (crc ^^^ (b % 256) * 2 ^ 56)) crc

/-- CRC-64/WE of a byte sequence (crcmod's `crc-64-we`):
register starts all-ones, final value xored with all-ones. -/
def crc64we (data : List Nat) : Nat :=
  crc64weUpdate 0xFFFFFFFFFFFFFFFF data ^^^ 0xFFFFFFFFFFFFFFFF

/-- Bit-reversal of a 64-bit value (a reflected CRC shifts with the
bit-reversed polynomial). -/
def bitReverse64 (n : Nat) : Nat :=
  (List.range 64).foldl (fun acc i => acc * 2 + n / 2 ^ i % 2) 0

/-- One shift step of a reflected (LSB-first) CRC-64. -/
def crc64RefStep (rpoly crc : Nat) : Nat :=
  if crc % 2 = 1 then crc / 2 ^^^ rpoly else crc / 2

/-- crcmod's `Crc.update` for the reflected `crc-64-jones` register
(`0x95AC9329AC4BC9B5` is the Jones polynomial `0xAD93D23594C935A9`
bit-reversed; see the example below). -/
def crc64jonesUpdate (crc : Nat) (data : List Nat) : Nat :=
  data.foldl (fun crc b => (crc64RefStep 0x95AC9329AC4BC9B5)^[8] (crc ^^^ b % 256)) crc

/-- CRC-64/Jones of a byte sequence (crcmod's `crc-64-jones`):
register starts all-ones, final xor-out is zero. -/
def crc64jones (data : List Nat) : Nat :=
  crc64jonesUpdate 0xFFFFFFFFFFFFFFFF data

example : bitReverse64 0xAD93D23594C935A9 = 0x95AC9329AC4BC9B5 := by decide

example : crc64we [0x31, 0x32, 0x33, 0x34, 0x35, 0x36, 0x37, 0x38, 0x39]
    = 0x62EC59E3F1A4F00A := by decide

example : crc64jones [0x31, 0x32, 0x33, 0x34, 0x35, 0x36, 0x37, 0x38, 0x39]
    = 0xCAA717168609F281 := by decide

theorem crc64Step_lt (poly crc : Nat) (hp : poly < 2 ^ 64) :
    crc64Step poly crc < 2 ^ 64 := by
  unfold crc64Step
  split
  · exact Nat.xor_lt_two_pow (Nat.mod_lt _ (by norm_num)) hp
  · exact Nat.mod_lt _ (by norm_num)

theorem crc64Step_iterate_lt (poly n x : Nat) (hp : poly < 2 ^ 64)
    (hx : x < 2 ^ 64) : (crc64Step poly)^[n] x < 2 ^ 64 := by
  induction n generalizing x with
  | zero => exact hx
  | succ n ih =>
    rw [Function.iterate_succ_apply]
    exact ih _ (crc64Step_lt poly x hp)

theorem crc64weUpdate_lt (data : List Nat) (init : Nat) (h0 : init < 2 ^ 64) :
    crc64weUpdate init data < 2 ^ 64 := by
  unfold crc64weUpdate
  induction data generalizing init with
  | nil => exact h0
  | cons b rest ih =>
    refine ih _ (crc64Step_iterate_lt _ 8 _ (by norm_num) ?_)
    exact Nat.xor_lt_two_pow h0
      (lt_of_le_of_lt (Nat.mul_le_mul_right _ (Nat.le_of_lt_succ (Nat.mod_lt _ (by norm_num))))
        (by norm_num))

theorem crc64we_lt (data : List Nat) : crc64we data < 2 ^ 64 := by
  unfold crc64we
  exact Nat.xor_lt_two_pow (crc64weUpdate_lt data _ (by norm_num)) (by norm_num)

theorem crc64weUpdate_append (init : Nat) (a b : List Nat) :
    crc64weUpdate init (a ++ b) = crc64weUpdate (crc64weUpdate init a) b := by
  simp [crc64weUpdate, List.foldl_append]

theorem crc64jonesUpdate_append (init : Nat) (a b : List Nat) :
    crc64jonesUpdate init (a ++ b) = crc64jonesUpdate (crc64jonesUpdate init a) b := by
  simp [crc64jonesUpdate, List.foldl_append]

/-! ## SuperblockCodec (`bcacheMakeDevice`, `_bcacheIsBackingDeviceOrCachDevice`,
`bcacheGetSetUuid` in `util.py`)

The 208-byte `cache_sb` record (format `QQQ16B16B16B32BQQ8QQHHHHIHH`) is built
field by field exactly as `bcacheMakeDevice` does, tracking the same packing
cursor; the device image it writes starts with 8 zero sectors, then the
record, then 256 zeroed 8-byte journal slots. -/

/-- The 16-byte bcache superblock magic constant. -/
def bcacheSbMagic : List Nat :=
  [0xc6, 0x85, 0x73, 0xf6, 0x4e, 0x1a, 0x45, 0xca,
   0x82, 0x65, 0xf5, 0x7f, 0x48, 0xba, 0x6d, 0x81]

/-- The 208-byte `cache_sb` record assembled by `bcacheMakeDevice`, before
the final checksum write (`sealSb` below performs that last step).
Arguments mirror the Python signature; `devSize` stands for
`getBlkDevSize(devPath)` (device size in bytes, used only for cache devices).
`none` is returned exactly where the Python raises: argument-assertion
failures, `bucket size cannot be smaller than block size`, `not enough
buckets`, and where `struct.pack` would reject an out-of-range field. -/
def bcacheMakeDeviceSbRaw (backingDeviceOrCacheDevice : Bool)
    (blockSize bucketSize : Nat) (dataOffset : Option Nat) (devSize : Nat)
    (devUuid setUuid : List Nat) : Option (List Nat) :=
  if blockSize = 0 ∨ bucketSize = 0 then none
  else if dataOffset = some 0 then none
  else if bucketSize < blockSize then none
  else if devUuid.length ≠ 16 ∨ setUuid.length ≠ 16 then none
  else if 2 ^ 16 ≤ blockSize ∨ 2 ^ 16 ≤ bucketSize then none
  else if (∃ d, dataOffset = some d ∧ 2 ^ 64 ≤ d) then none
  else if backingDeviceOrCacheDevice = false ∧ 2 ^ 64 ≤ devSize / 512 / bucketSize then none
  else
    -- cache_sb.offset (sector where this sb was written = SB_SECTOR = 8)
    let sb := packInto (List.replicate 208 0) 8 (leBytes 8 8)
    -- cache_sb.version: 1 = BCACHE_SB_VERSION_BDEV, 0 = BCACHE_SB_VERSION_CDEV
    let sb := packInto sb 16 (leBytes 8 (if backingDeviceOrCacheDevice then 1 else 0))
    -- cache_sb.magic
    let sb := packInto sb 24 bcacheSbMagic
    -- cache_sb.uuid
    let sb := packInto sb 40 devUuid
    -- cache_sb.set_uuid
    let sb := packInto sb 56 setUuid
    -- cache_sb.label: left zeroed
    -- cache_sb.flags: CACHE_MODE_WRITEBACK for a backing device
    let sb := packInto sb 104 (leBytes 8 (if backingDeviceOrCacheDevice then 1 else 0))
    -- cache_sb.seq and cache_sb.pad: left zeroed
    -- the union: backing devices may rewrite version to 4
    -- (BCACHE_SB_VERSION_BDEV_WITH_OFFSET) and carry data_offset; cache
    -- devices carry nbuckets = size / 512 / bucket_size (must be >= 0x80)
    match (if backingDeviceOrCacheDevice then
            match dataOffset with
            | some d => some (packInto (packInto sb 16 (leBytes 8 4)) 184 (leBytes 8 d))
            | none => some sb
          else
            if devSize / 512 / bucketSize < 0x80 then none
            else some (packInto sb 184 (leBytes 8 (devSize / 512 / bucketSize)))) with
    | none => none
    | some sb =>
      -- cache_sb.block_size, cache_sb.bucket_size
      let sb := packInto sb 192 (leBytes 2 blockSize)
      let sb := packInto sb 194 (leBytes 2 bucketSize)
      -- cache_sb.nr_in_set: only written (and the cursor only advanced) for
      -- cache devices; as a result the subsequent fields of a backing-device
      -- record land two bytes earlier than the С struct says
      let sb := if backingDeviceOrCacheDevice then sb else packInto sb 196 (leBytes 2 1)
      -- cache_sb.nr_this_dev and cache_sb.last_mount: cursor skips
      -- cache_sb.first_bucket = 23 // bucket_size + 1, at the final cursor
      let sb := packInto sb (if backingDeviceOrCacheDevice then 202 else 204)
        (leBytes 2 (23 / bucketSize + 1))
      some sb

/-- The last construction step of `bcacheMakeDevice`: compute the CRC-64/WE
checksum over everything after the checksum field (`bcacheSb[8:]`) and store
it in the leading 8-byte `cache_sb.csum` slot. -/
def sealSb (sb : List Nat) : List Nat :=
  packInto sb 0 (leBytes 8 (crc64we (sb.drop 8)))

/-- The 208-byte `cache_sb` record as `bcacheMakeDevice` writes it: the raw
record with the checksum computed and stored last. -/
def bcacheMakeDeviceSb (backingDeviceOrCacheDevice : Bool)
    (blockSize bucketSize : Nat) (dataOffset : Option Nat) (devSize : Nat)
    (devUuid setUuid : List Nat) : Option (List Nat) :=
  (bcacheMakeDeviceSbRaw backingDeviceOrCacheDevice blockSize bucketSize
    dataOffset devSize devUuid setUuid).map sealSb

/-- The bytes `bcacheMakeDevice` writes to the device, from byte offset 0:
8 zero sectors, the superblock record, then the zeroed journal-bucket array
(`cache_sb.d`, 256 8-byte slots). -/
def bcacheMakeDeviceImage (sb : List Nat) : List Nat :=
  List.replicate (8 * 512) 0 ++ sb ++ List.replicate (256 * 8) 0

/-- `_bcacheIsBackingDeviceOrCachDevice`: superblock decode.  Reads the
device contents `dev`; checks the 16 magic bytes at `8*512 + 24`, then the
version at `8*512 + 16` against the class's accepted version list.  (It reads
nothing else: in particular it never verifies the checksum.) -/
def bcacheIsBackingDeviceOrCachDevice (dev : List Nat)
    (backingDeviceOrCacheDevice : Bool) : Bool :=
  if readBytes dev (8 * 512 + 24) 16 = bcacheSbMagic then
    let value := leRead dev (8 * 512 + 16) 8
    if backingDeviceOrCacheDevice then
      -- BCACHE_SB_VERSION_BDEV, BCACHE_SB_VERSION_BDEV_WITH_OFFSET
      value == 1 || value == 4
    else
      -- BCACHE_SB_VERSION_CDEV, BCACHE_SB_VERSION_CDEV_WITH_UUID
      value == 0 || value == 3
  else false

/-- `bcacheIsBackingDevice` in `util.py`. -/
def bcacheIsBackingDevice (dev : List Nat) : Bool :=
  bcacheIsBackingDeviceOrCachDevice dev true

/-- `bcacheIsCacheDevice` in `util.py`. -/
def bcacheIsCacheDevice (dev : List Nat) : Bool :=
  bcacheIsBackingDeviceOrCachDevice dev false

/-- `bcacheGetSetUuid`: the 16 set-UUID bytes at `8*512 + calcsize("QQQ16B16B")`. -/
def bcacheGetSetUuid (dev : List Nat) : List Nat :=
  readBytes dev (8 * 512 + 56) 16

theorem packInto_length_single (dev : List Nat) (p v : Nat) (hp : p < dev.length) :
    (packInto dev p [v]).length = dev.length := by
  simp only [packInto, List.length_append, List.length_take, List.length_cons,
    List.length_nil, List.length_drop]
  omega

theorem packInto_getElem_ne (dev : List Nat) (p v j : Nat) (hp : p < dev.length)
    (hj : j ≠ p) : (packInto dev p [v])[j]? = dev[j]? := by
  unfold packInto
  have hlen : (dev.take p ++ [v]).length = p + 1 := by
    simp [List.length_take]
    omega
  rcases Nat.lt_or_ge j p with h | h
  · rw [List.getElem?_append_left (by omega : j < (dev.take p ++ [v]).length),
      List.getElem?_append_left (by simp [List.length_take]; omega),
      List.getElem?_take_of_lt h]
  · have h' : p + 1 ≤ j := by omega
    rw [List.getElem?_append_right (by omega : (dev.take p ++ [v]).length ≤ j), hlen,
      List.getElem?_drop]
    simp only [List.length_cons, List.length_nil]
    congr 1
    omega

theorem readBytes_packInto_single (dev : List Nat) (p v q k : Nat)
    (hp : p < dev.length) (h : q + k ≤ p ∨ p + 1 ≤ q) :
    readBytes (packInto dev p [v]) q k = readBytes dev q k := by
  refine List.ext_getElem? fun i => ?_
  unfold readBytes
  by_cases hik : i < k
  · rw [List.getElem?_take_of_lt hik, List.getElem?_take_of_lt hik,
      List.getElem?_drop, List.getElem?_drop]
    exact packInto_getElem_ne dev p v (q + i) hp (by omega)
  · rw [List.getElem?_take_eq_none (by omega), List.getElem?_take_eq_none (by omega)]


theorem packInto_append_middle (A mid B bs : List Nat) (p : Nat)
    (h : p + bs.length ≤ mid.length) :
    packInto (A ++ mid ++ B) (A.length + p) bs = A ++ packInto mid p bs ++ B := by
  unfold packInto
  have ht : (A ++ mid ++ B).take (A.length + p) = A ++ mid.take p := by
    rw [List.append_assoc, List.take_append, List.take_append_of_le_length (by omega)]
  have hd : (A ++ mid ++ B).drop (A.length + p + bs.length)
      = mid.drop (p + bs.length) ++ B := by
    rw [List.append_assoc, show A.length + p + bs.length = A.length + (p + bs.length) by omega,
      List.drop_append, List.drop_append_eq_append_drop,
      show p + bs.length - mid.length = 0 by omega, List.drop_zero]
  rw [ht, hd]
  simp [List.append_assoc]

theorem readBytes_image (sb : List Nat) (q k : Nat) :
    readBytes (bcacheMakeDeviceImage sb) (8 * 512 + q) k
      = readBytes (sb ++ List.replicate (256 * 8) 0) q k := by
  unfold bcacheMakeDeviceImage readBytes
  generalize hA : List.replicate (8 * 512) (0 : Nat) = A
  have hAlen : A.length = 8 * 512 := by rw [← hA, List.length_replicate]
  rw [List.append_assoc, show (8 * 512 + q : Nat) = A.length + q by rw [hAlen],
    List.drop_append]

theorem length_image (sb : List Nat) :
    (bcacheMakeDeviceImage sb).length = 8 * 512 + sb.length + 256 * 8 := by
  unfold bcacheMakeDeviceImage
  rw [List.length_append, List.length_append, List.length_replicate,
    List.length_replicate]

/-- A concretely encoded backing-device superblock (UUID bytes instantiated
with fixed values standing in for `uuid.uuid4()`). -/
def sbBackingExample : List Nat :=
  (bcacheMakeDeviceSb true 1 1024 none 0
    [0, 1, 2, 3, 4, 5, 6, 7, 8, 9, 10, 11, 12, 13, 14, 15]
    [16, 17, 18, 19, 20, 21, 22, 23, 24, 25, 26, 27, 28, 29, 30, 31]).getD []

/-- The device image written for `sbBackingExample`. -/
def imgBackingExample : List Nat := bcacheMakeDeviceImage sbBackingExample

/-- **C1, counterexample.**  The claim says flipping any single byte that
participates in the checksum makes decode report a checksum mismatch.  It is
false: decode never reads the checksum.  Overwriting device byte
`8*512 + 72` (the first label byte, inside the checksummed region, originally
`0`) with `1` leaves decode accepting the record. -/
theorem C1_counterexample :
    bcacheIsBackingDeviceOrCachDevice imgBackingExample true = true
      ∧ bcacheIsBackingDeviceOrCachDevice
          (packInto imgBackingExample (8 * 512 + 72) [1]) true = true
      ∧ readBytes imgBackingExample (8 * 512 + 72) 1 ≠ [1] := by
  have hlen : sbBackingExample.length = 208 := by decide
  have himg : packInto imgBackingExample (8 * 512 + 72) [1]
      = bcacheMakeDeviceImage (packInto sbBackingExample 72 [1]) := by
    unfold imgBackingExample bcacheMakeDeviceImage
    generalize hA : List.replicate (8 * 512) (0 : Nat) = A
    have hAlen : A.length = 8 * 512 := by rw [← hA, List.length_replicate]
    rw [show (8 * 512 + 72 : Nat) = A.length + 72 by rw [hAlen],
      packInto_append_middle _ _ _ [1] 72 (by simp [hlen])]
  refine ⟨?_, ?_, ?_⟩
  · unfold imgBackingExample bcacheIsBackingDeviceOrCachDevice leRead
    rw [readBytes_image, readBytes_image]
    decide
  · rw [himg]
    unfold bcacheIsBackingDeviceOrCachDevice leRead
    rw [readBytes_image, readBytes_image]
    decide
  · unfold imgBackingExample
    rw [readBytes_image]
    decide

/-- **C1 (amended).**  Superblock decode checks the magic constant and the
version field, treating a mismatch as a negative probe (it returns `false`
rather than raising); it performs no checksum verification: overwriting any
single byte outside the version and magic fields (device bytes
`8*512+16 ..< 8*512+40`) — in particular any checksummed byte outside those
fields — never changes decode's verdict. -/
theorem C1_decode_reads_only_magic_and_version
    (dev : List Nat) (b : Bool) (p v : Nat) (hp : p < dev.length)
    (hrange : p + 1 ≤ 8 * 512 + 16 ∨ 8 * 512 + 40 ≤ p) :
    bcacheIsBackingDeviceOrCachDevice (packInto dev p [v]) b
      = bcacheIsBackingDeviceOrCachDevice dev b := by
  unfold bcacheIsBackingDeviceOrCachDevice leRead
  rw [readBytes_packInto_single dev p v (8 * 512 + 24) 16 hp (by omega),
    readBytes_packInto_single dev p v (8 * 512 + 16) 8 hp (by omega)]

/-- Witness for `C1_decode_reads_only_magic_and_version`: instantiated at the
encoded example image, overwriting the flags byte (`8*512 + 104`) with `7`. -/
theorem C1_amended_witness :
    8 * 512 + 104 < imgBackingExample.length
      ∧ bcacheIsBackingDeviceOrCachDevice
          (packInto imgBackingExample (8 * 512 + 104) [7]) true
        = bcacheIsBackingDeviceOrCachDevice imgBackingExample true := by
  have hp : 8 * 512 + 104 < imgBackingExample.length := by
    show 8 * 512 + 104 < (bcacheMakeDeviceImage sbBackingExample).length
    rw [length_image, show sbBackingExample.length = 208 by decide]
    omega
  exact ⟨hp, C1_decode_reads_only_magic_and_version imgBackingExample true
    (8 * 512 + 104) 7 hp (by omega)⟩

theorem sealSb_drop_8 (pre : List Nat) : (sealSb pre).drop 8 = pre.drop 8 := by
  unfold sealSb packInto
  rw [List.take_zero, List.nil_append, Nat.zero_add,
    ← leBytes_length 8 (crc64we (pre.drop 8))]
  exact List.drop_left _ _

theorem leRead_sealSb (pre : List Nat) :
    leRead (sealSb pre) 0 8 = crc64we (pre.drop 8) := by
  unfold sealSb packInto
  rw [List.take_zero, List.nil_append,
    leRead_append_of_length _ _ 8 (leBytes_length _ _), leRead_leBytes,
    show (256 : Nat) ^ 8 = 2 ^ 64 by norm_num]
  exact Nat.mod_eq_of_lt (crc64we_lt _)

/-- **C4 (amended).**  Superblock encode computes the 8-byte checksum last,
as CRC-64 — but the "WE" variant (`crc-64-we`), not the "Jones" variant —
over all bytes of the record following the checksum field, and stores it in
the leading 8-byte checksum slot: every record `bcacheMakeDevice` produces
carries, in bytes 0..8 (little-endian), exactly `crc64we` of bytes 8..208. -/
theorem C4_checksum_is_crc64we_of_tail (backingDeviceOrCacheDevice : Bool)
    (blockSize bucketSize : Nat) (dataOffset : Option Nat) (devSize : Nat)
    (devUuid setUuid sb : List Nat)
    (h : bcacheMakeDeviceSb backingDeviceOrCacheDevice blockSize bucketSize
        dataOffset devSize devUuid setUuid = some sb) :
    leRead sb 0 8 = crc64we (sb.drop 8) := by
  unfold bcacheMakeDeviceSb at h
  rcases Option.map_eq_some'.mp h with ⟨pre, _, rfl⟩
  rw [leRead_sealSb, sealSb_drop_8]

/-- A concretely encoded cache-device superblock, before sealing (bucket size
1024 sectors, device size `128 * 1024 * 512` bytes = exactly 0x80 buckets). -/
def preCacheExample : List Nat :=
  (bcacheMakeDeviceSbRaw false 1 1024 none (128 * 1024 * 512)
    [32, 33, 34, 35, 36, 37, 38, 39, 40, 41, 42, 43, 44, 45, 46, 47]
    [48, 49, 50, 51, 52, 53, 54, 55, 56, 57, 58, 59, 60, 61, 62, 63]).getD []

/-- The sealed record for `preCacheExample`. -/
def sbCacheExample : List Nat :=
  (bcacheMakeDeviceSb false 1 1024 none (128 * 1024 * 512)
    [32, 33, 34, 35, 36, 37, 38, 39, 40, 41, 42, 43, 44, 45, 46, 47]
    [48, 49, 50, 51, 52, 53, 54, 55, 56, 57, 58, 59, 60, 61, 62, 63]).getD []

/-- Bytes 8..208 of `preCacheExample` (the checksummed region), in 40-byte
chunks so the CRC registers can be evaluated stepwise. -/
def c4Tail1 : List Nat :=
  [8, 0, 0, 0, 0, 0, 0, 0, 0, 0, 0, 0, 0, 0, 0, 0, 198, 133, 115, 246,
   78, 26, 69, 202, 130, 101, 245, 127, 72, 186, 109, 129, 32, 33, 34, 35, 36, 37, 38, 39]

/-- Second chunk of the checksummed region. -/
def c4Tail2 : List Nat :=
  [40, 41, 42, 43, 44, 45, 46, 47, 48, 49, 50, 51, 52, 53, 54, 55, 56, 57, 58, 59,
   60, 61, 62, 63, 0, 0, 0, 0, 0, 0, 0, 0, 0, 0, 0, 0, 0, 0, 0, 0]

/-- Third chunk of the checksummed region (all label/seq/pad zeros). -/
def c4Tail3 : List Nat := List.replicate 40 0

/-- Fourth chunk of the checksummed region (all pad zeros). -/
def c4Tail4 : List Nat := List.replicate 40 0

/-- Fifth chunk of the checksummed region (nbuckets = 0x80, block size 1,
bucket size 1024, nr_in_set 1, first_bucket 1). -/
def c4Tail5 : List Nat :=
  [0, 0, 0, 0, 0, 0, 0, 0, 0, 0, 0, 0, 0, 0, 0, 0, 128, 0, 0, 0,
   0, 0, 0, 0, 1, 0, 0, 4, 1, 0, 0, 0, 0, 0, 0, 0, 1, 0, 0, 0]

/-- **C4, counterexample.**  The claim names the CRC-64 "Jones" variant; the
code uses crcmod's `crc-64-we`.  On a concretely encoded cache-device record
the stored leading checksum equals `crc64we` of the bytes following the
checksum field and differs from `crc64jones` of the same bytes. -/
theorem C4_counterexample :
    leRead sbCacheExample 0 8 = crc64we (sbCacheExample.drop 8)
      ∧ leRead sbCacheExample 0 8 ≠ crc64jones (sbCacheExample.drop 8) := by
  have hseal : sbCacheExample = sealSb preCacheExample := rfl
  have hdrop : preCacheExample.drop 8
      = c4Tail1 ++ (c4Tail2 ++ (c4Tail3 ++ (c4Tail4 ++ c4Tail5))) := by decide
  have s1 : crc64weUpdate 0xFFFFFFFFFFFFFFFF c4Tail1 = 0x26D139CAE30E8303 := by decide
  have s2 : crc64weUpdate 0x26D139CAE30E8303 c4Tail2 = 0x8B65184E7368378F := by decide
  have s3 : crc64weUpdate 0x8B65184E7368378F c4Tail3 = 0xA9750C94EF213E99 := by decide
  have s4 : crc64weUpdate 0xA9750C94EF213E99 c4Tail4 = 0x829974A735ABCCA3 := by decide
  have s5 : crc64weUpdate 0x829974A735ABCCA3 c4Tail5 = 0xB468D47757972D6A := by decide
  have j1 : crc64jonesUpdate 0xFFFFFFFFFFFFFFFF c4Tail1 = 0x8FEA29E7EB005C2B := by decide
  have j2 : crc64jonesUpdate 0x8FEA29E7EB005C2B c4Tail2 = 0x11C041658FD05F53 := by decide
  have j3 : crc64jonesUpdate 0x11C041658FD05F53 c4Tail3 = 0x22E2EED0E4706A7B := by decide
  have j4 : crc64jonesUpdate 0x22E2EED0E4706A7B c4Tail4 = 0x3246A81065BC3DC9 := by decide
  have j5 : crc64jonesUpdate 0x3246A81065BC3DC9 c4Tail5 = 0xF31B6B411F76CCE3 := by decide
  have hwe : crc64we (preCacheExample.drop 8) = 0x4B972B88A868D295 := by
    unfold crc64we
    rw [hdrop, crc64weUpdate_append, s1, crc64weUpdate_append, s2,
      crc64weUpdate_append, s3, crc64weUpdate_append, s4, s5]
    decide
  have hjones : crc64jones (preCacheExample.drop 8) = 0xF31B6B411F76CCE3 := by
    unfold crc64jones
    rw [hdrop, crc64jonesUpdate_append, j1, crc64jonesUpdate_append, j2,
      crc64jonesUpdate_append, j3, crc64jonesUpdate_append, j4, j5]
  constructor
  · rw [hseal, leRead_sealSb, sealSb_drop_8]
  · rw [hseal, leRead_sealSb, sealSb_drop_8, hwe, hjones]
    decide

/-- A concretely encoded backing-device superblock carrying an explicit data
offset (version `BCACHE_SB_VERSION_BDEV_WITH_OFFSET`). -/
def sbBackingOffsetExample : List Nat :=
  (bcacheMakeDeviceSb true 2 8 (some 16) 0
    [64, 65, 66, 67, 68, 69, 70, 71, 72, 73, 74, 75, 76, 77, 78, 79]
    [80, 81, 82, 83, 84, 85, 86, 87, 88, 89, 90, 91, 92, 93, 94, 95]).getD []

/-- Witness for `C4_checksum_is_crc64we_of_tail`, instantiated at the
backing-device-with-offset encoding. -/
theorem C4_amended_witness :
    bcacheMakeDeviceSb true 2 8 (some 16) 0
      [64, 65, 66, 67, 68, 69, 70, 71, 72, 73, 74, 75, 76, 77, 78, 79]
      [80, 81, 82, 83, 84, 85, 86, 87, 88, 89, 90, 91, 92, 93, 94, 95]
      = some sbBackingOffsetExample
      ∧ leRead sbBackingOffsetExample 0 8 = crc64we (sbBackingOffsetExample.drop 8) :=
  ⟨rfl, C4_checksum_is_crc64we_of_tail true 2 8 (some 16) 0
    [64, 65, 66, 67, 68, 69, 70, 71, 72, 73, 74, 75, 76, 77, 78, 79]
    [80, 81, 82, 83, 84, 85, 86, 87, 88, 89, 90, 91, 92, 93, 94, 95]
    sbBackingOffsetExample rfl⟩

/-! ## Device paths (`devPathDiskToPartition`,
`devPathPartitionToDiskAndPartitionId` in `util.py`)

Device paths are embedded as `List Char`.  The `re.fullmatch` patterns
(`/dev/sd[a-z]`, `/dev/xvd[a-z]`, `/dev/vd[a-z]`, `/dev/nvme[0-9]+n[0-9]+`,
and the corresponding `(disk)(partition-number)` forms) become structural
matchers; since a digit run cannot overlap the literal that follows it,
greedy matching is exact and no backtracking is needed. -/

/-- The characters of `"/dev/sd"`. -/
def sdPre : List Char := ['/', 'd', 'e', 'v', '/', 's', 'd']

/-- The characters of `"/dev/xvd"`. -/
def xvdPre : List Char := ['/', 'd', 'e', 'v', '/', 'x', 'v', 'd']

/-- The characters of `"/dev/vd"`. -/
def vdPre : List Char := ['/', 'd', 'e', 'v', '/', 'v', 'd']

/-- The characters of `"/dev/nvme"`. -/
def nvmePre : List Char := ['/', 'd', 'e', 'v', '/', 'n', 'v', 'm', 'e']

/-- `[a-z]`. -/
def isLowerAlpha (c : Char) : Bool := 'a' ≤ c && c ≤ 'z'

/-- `[0-9]`. -/
def isDigitChar (c : Char) : Bool := '0' ≤ c && c ≤ '9'

/-- `[0-9]+` as a whole-string match. -/
def allDigits (s : List Char) : Bool := !s.isEmpty && s.all isDigitChar

/-- Split off the longest `[0-9]*` prefix. -/
def splitDigits : List Char → List Char × List Char
  | [] => ([], [])
  | c :: cs =>
    if isDigitChar c then
      let (a, b) := splitDigits cs
      (c :: a, b)
    else ([], c :: cs)

/-- `re.fullmatch(pre + "[a-z]", s)` for a literal prefix `pre`. -/
def matchDiskAlpha (pre s : List Char) : Bool :=
  s.take pre.length == pre && (s.drop pre.length).length == 1
    && (s.drop pre.length).all isLowerAlpha

/-- `re.fullmatch("/dev/nvme[0-9]+n[0-9]+", s)`. -/
def matchNvmeDisk (s : List Char) : Bool :=
  s.take 9 == nvmePre &&
    (let (d1, r1) := splitDigits (s.drop 9)
     !d1.isEmpty &&
       match r1 with
       | c :: r2 =>
         c == 'n' &&
           (let (d2, r3) := splitDigits r2
            !d2.isEmpty && r3.isEmpty)
       | [] => false)

/-- `str(n)` for a natural number: most-significant-first decimal digits. -/
def natToDigits (n : Nat) : List Char :=
  if n = 0 then ['0']
  else (Nat.digits 10 n).reverse.map (fun d => Char.ofNat (48 + d))

/-- `int(s)` for a decimal digit string. -/
def digitsToNat (s : List Char) : Nat :=
  s.foldl (fun acc c => acc * 10 + (c.toNat - 48)) 0

/-- `devPathDiskToPartition(diskDevPath, partitionId)`; `none` models the
trailing `assert False` for an unrecognized disk path. -/
def devPathDiskToPartition (diskDevPath : List Char) (partitionId : Nat) :
    Option (List Char) :=
  if matchDiskAlpha sdPre diskDevPath then
    some (diskDevPath ++ natToDigits partitionId)
  else if matchDiskAlpha xvdPre diskDevPath then
    some (diskDevPath ++ natToDigits partitionId)
  else if matchDiskAlpha vdPre diskDevPath then
    some (diskDevPath ++ natToDigits partitionId)
  else if matchNvmeDisk diskDevPath then
    some (diskDevPath ++ 'p' :: natToDigits partitionId)
  else none

/-- `devPathPartitionToDiskAndPartitionId(partitionDevPath)`: try the four
`(disk)(partition-number)` patterns in order; `none` models the trailing
`assert False`. -/
def devPathPartitionToDiskAndPartitionId (partitionDevPath : List Char) :
    Option (List Char × Nat) :=
  if matchDiskAlpha sdPre (partitionDevPath.take 8)
      && allDigits (partitionDevPath.drop 8) then
    some (partitionDevPath.take 8, digitsToNat (partitionDevPath.drop 8))
  else if matchDiskAlpha xvdPre (partitionDevPath.take 9)
      && allDigits (partitionDevPath.drop 9) then
    some (partitionDevPath.take 9, digitsToNat (partitionDevPath.drop 9))
  else if matchDiskAlpha vdPre (partitionDevPath.take 8)
      && allDigits (partitionDevPath.drop 8) then
    some (partitionDevPath.take 8, digitsToNat (partitionDevPath.drop 8))
  else if partitionDevPath.take 9 == nvmePre then
    let (d1, r1) := splitDigits (partitionDevPath.drop 9)
    if !d1.isEmpty then
      match r1 with
      | c1 :: r2 =>
        if c1 == 'n' then
          let (d2, r3) := splitDigits r2
          if !d2.isEmpty then
            match r3 with
            | c2 :: r4 =>
              if c2 == 'p' then
                if allDigits r4 then
                  some (partitionDevPath.take (9 + d1.length + 1 + d2.length),
                    digitsToNat r4)
                else none
              else none
            | [] => none
          else none
        else none
      | [] => none
    else none
  else none

/-- `devPathPartitionToDisk` in `util.py`. -/
def devPathPartitionToDisk (partitionDevPath : List Char) : Option (List Char) :=
  (devPathPartitionToDiskAndPartitionId partitionDevPath).map Prod.fst

theorem charOfDigit_toNat (d : Nat) (h : d < 10) :
    (Char.ofNat (48 + d)).toNat = 48 + d := by
  interval_cases d <;> decide

theorem isDigitChar_charOfDigit (d : Nat) (h : d < 10) :
    isDigitChar (Char.ofNat (48 + d)) = true := by
  unfold isDigitChar
  interval_cases d <;> decide

theorem natToDigits_all_digits (n : Nat) :
    (natToDigits n).all isDigitChar = true := by
  unfold natToDigits
  split
  · decide
  · rw [List.all_eq_true]
    intro c hc
    rw [List.mem_map] at hc
    obtain ⟨d, hd, rfl⟩ := hc
    rw [List.mem_reverse] at hd
    exact isDigitChar_charOfDigit d (Nat.digits_lt_base (by norm_num) hd)

theorem natToDigits_ne_nil (n : Nat) : natToDigits n ≠ [] := by
  unfold natToDigits
  split
  · simp
  · simp [Nat.digits_ne_nil_iff_ne_zero, *]

theorem digitsToNat_append_singleton (a : List Char) (c : Char) :
    digitsToNat (a ++ [c]) = digitsToNat a * 10 + (c.toNat - 48) := by
  simp [digitsToNat, List.foldl_append]

theorem digitsToNat_rev_map (L : List Nat) (hL : ∀ d ∈ L, d < 10) :
    digitsToNat (L.reverse.map (fun d => Char.ofNat (48 + d))) = Nat.ofDigits 10 L := by
  induction L with
  | nil => simp [digitsToNat]
  | cons d rest ih =>
    rw [List.reverse_cons, List.map_append, List.map_singleton,
      digitsToNat_append_singleton, ih (fun x hx => hL x (List.mem_cons_of_mem _ hx)),
      charOfDigit_toNat d (hL d (List.mem_cons_self _ _)), Nat.ofDigits_cons]
    omega

theorem digitsToNat_natToDigits (n : Nat) : digitsToNat (natToDigits n) = n := by
  unfold natToDigits
  split
  · subst n
    decide
  · rw [digitsToNat_rev_map _ (fun d hd => Nat.digits_lt_base (by norm_num) hd),
      Nat.ofDigits_digits]

theorem allDigits_natToDigits (k : Nat) : allDigits (natToDigits k) = true := by
  unfold allDigits
  rw [natToDigits_all_digits, Bool.and_true, Bool.not_eq_true']
  rw [List.isEmpty_eq_false]
  exact natToDigits_ne_nil k

theorem splitDigits_append (a b : List Char) (ha : a.all isDigitChar = true)
    (hb : ∀ c cs, b = c :: cs → isDigitChar c = false) :
    splitDigits (a ++ b) = (a, b) := by
  induction a with
  | nil =>
    rw [List.nil_append]
    cases b with
    | nil => rfl
    | cons c cs =>
      unfold splitDigits
      rw [hb c cs rfl]
      simp
  | cons c a' ih =>
    rw [List.all_cons, Bool.and_eq_true] at ha
    rw [List.cons_append]
    unfold splitDigits
    rw [ha.1]
    simp only [if_true]
    rw [ih ha.2]

theorem splitDigits_all (s : List Char) (hs : s.all isDigitChar = true) :
    splitDigits s = (s, []) := by
  have := splitDigits_append s [] hs (by intro c cs h; cases h)
  rwa [List.append_nil] at this

theorem matchDiskAlpha_append (pre : List Char) (c : Char)
    (hc : isLowerAlpha c = true) : matchDiskAlpha pre (pre ++ [c]) = true := by
  unfold matchDiskAlpha
  rw [List.take_left, List.drop_left]
  simp [hc]

theorem matchDiskAlpha_false_of_take_ne (pre s : List Char)
    (h : s.take pre.length ≠ pre) : matchDiskAlpha pre s = false := by
  unfold matchDiskAlpha
  rw [beq_eq_false_iff_ne.mpr h, Bool.false_and, Bool.false_and]

theorem matchDiskAlpha_inv (pre s : List Char)
    (h : matchDiskAlpha pre s = true) :
    ∃ c, s = pre ++ [c] ∧ isLowerAlpha c = true := by
  unfold matchDiskAlpha at h
  rw [Bool.and_eq_true, Bool.and_eq_true] at h
  obtain ⟨⟨h1, h2⟩, h3⟩ := h
  rw [beq_iff_eq] at h1
  rw [beq_iff_eq] at h2
  obtain ⟨c, hc⟩ := List.length_eq_one.mp h2
  refine ⟨c, ?_, ?_⟩
  · rw [← h1, ← hc, List.take_append_drop]
  · rw [hc, List.all_cons, List.all_nil, Bool.and_true] at h3
    exact h3

theorem splitDigits_parts (s : List Char) :
    (splitDigits s).1 ++ (splitDigits s).2 = s
      ∧ (splitDigits s).1.all isDigitChar = true := by
  induction s with
  | nil => exact ⟨rfl, rfl⟩
  | cons c cs ih =>
    rcases hsd : splitDigits cs with ⟨x, y⟩
    rw [hsd] at ih
    simp only at ih
    cases hc : isDigitChar c with
    | true =>
      have h1 : splitDigits (c :: cs) = (c :: x, y) := by
        simp only [splitDigits, hc, if_true, hsd]
      rw [h1]
      refine ⟨?_, ?_⟩
      · show (c :: x) ++ y = c :: cs
        rw [List.cons_append, ih.1]
      · show (c :: x).all isDigitChar = true
        rw [List.all_cons, hc, ih.2]
        rfl
    | false =>
      have h1 : splitDigits (c :: cs) = ([], c :: cs) := by
        simp only [splitDigits, hc]
        simp
      rw [h1]
      exact ⟨rfl, rfl⟩

theorem matchNvmeDisk_inv (s : List Char) (h : matchNvmeDisk s = true) :
    ∃ d1 d2 : List Char, s = nvmePre ++ (d1 ++ 'n' :: d2)
      ∧ d1 ≠ [] ∧ d2 ≠ [] ∧ d1.all isDigitChar = true
      ∧ d2.all isDigitChar = true := by
  unfold matchNvmeDisk at h
  rw [Bool.and_eq_true] at h
  obtain ⟨h1, h2⟩ := h
  rw [beq_iff_eq] at h1
  obtain ⟨hsplit1, hall1⟩ := splitDigits_parts (s.drop 9)
  rcases hsd : splitDigits (s.drop 9) with ⟨d1, r1⟩
  rw [hsd] at h2 hsplit1 hall1
  simp only at h2 hsplit1 hall1
  rw [Bool.and_eq_true] at h2
  obtain ⟨hne1, h3⟩ := h2
  cases r1 with
  | nil => exact absurd h3 (by decide)
  | cons c1 r2 =>
    simp only at h3
    rw [Bool.and_eq_true, beq_iff_eq] at h3
    obtain ⟨rfl, h4⟩ := h3
    obtain ⟨hsplit2, hall2⟩ := splitDigits_parts r2
    rcases hsd2 : splitDigits r2 with ⟨d2, r3⟩
    rw [hsd2] at h4 hsplit2 hall2
    simp only at h4 hsplit2 hall2
    rw [Bool.and_eq_true] at h4
    obtain ⟨hne2, hr3⟩ := h4
    rw [List.isEmpty_iff] at hr3
    subst hr3
    rw [List.append_nil] at hsplit2
    subst hsplit2
    refine ⟨d1, d2, ?_, ?_, ?_, hall1, hall2⟩
    · rw [hsplit1, ← h1, List.take_append_drop]
    · rw [Bool.not_eq_true', List.isEmpty_eq_false] at hne1
      exact hne1
    · rw [Bool.not_eq_true', List.isEmpty_eq_false] at hne2
      exact hne2

theorem roundtrip_sd (c : Char) (k : Nat) (hc : isLowerAlpha c = true) :
    (devPathDiskToPartition (sdPre ++ [c]) k).bind devPathPartitionToDiskAndPartitionId
      = some (sdPre ++ [c], k) := by
  have hm := matchDiskAlpha_append sdPre c hc
  have hlen : (sdPre ++ [c]).length = 8 := by
    rw [List.length_append]
    rfl
  unfold devPathDiskToPartition
  rw [hm, if_pos rfl]
  show devPathPartitionToDiskAndPartitionId ((sdPre ++ [c]) ++ natToDigits k)
      = some (sdPre ++ [c], k)
  unfold devPathPartitionToDiskAndPartitionId
  rw [List.take_left' hlen, List.drop_left' hlen, hm, allDigits_natToDigits,
    digitsToNat_natToDigits]
  simp

theorem roundtrip_xvd (c : Char) (k : Nat) (hc : isLowerAlpha c = true) :
    (devPathDiskToPartition (xvdPre ++ [c]) k).bind devPathPartitionToDiskAndPartitionId
      = some (xvdPre ++ [c], k) := by
  have hm := matchDiskAlpha_append xvdPre c hc
  have hlen : (xvdPre ++ [c]).length = 9 := by
    rw [List.length_append]
    rfl
  have hsd : matchDiskAlpha sdPre (xvdPre ++ [c]) = false := by
    apply matchDiskAlpha_false_of_take_ne
    rw [show sdPre.length = 7 from rfl,
      List.take_append_of_le_length (by rw [show xvdPre.length = 8 from rfl]; omega)]
    decide
  have hb1 : matchDiskAlpha sdPre (((xvdPre ++ [c]) ++ natToDigits k).take 8)
      = false := by
    apply matchDiskAlpha_false_of_take_ne
    rw [show sdPre.length = 7 from rfl, List.take_take,
      show min 7 8 = 7 from rfl, List.append_assoc,
      List.take_append_of_le_length (by rw [show xvdPre.length = 8 from rfl]; omega)]
    decide
  unfold devPathDiskToPartition
  rw [hsd, hm]
  simp only [Bool.false_eq_true, if_false, if_true]
  show devPathPartitionToDiskAndPartitionId ((xvdPre ++ [c]) ++ natToDigits k)
      = some (xvdPre ++ [c], k)
  unfold devPathPartitionToDiskAndPartitionId
  rw [hb1, List.take_left' hlen, List.drop_left' hlen, hm, allDigits_natToDigits,
    digitsToNat_natToDigits]
  simp

theorem roundtrip_vd (c : Char) (k : Nat) (hc : isLowerAlpha c = true) :
    (devPathDiskToPartition (vdPre ++ [c]) k).bind devPathPartitionToDiskAndPartitionId
      = some (vdPre ++ [c], k) := by
  have hm := matchDiskAlpha_append vdPre c hc
  have hlen : (vdPre ++ [c]).length = 8 := by
    rw [List.length_append]
    rfl
  have hne_x : vdPre ++ [c] ≠ xvdPre := by
    intro h
    have h7 := congrArg (List.take 7) h
    rw [List.take_left' (show vdPre.length = 7 from rfl)] at h7
    exact absurd h7 (by decide)
  have hsd : matchDiskAlpha sdPre (vdPre ++ [c]) = false := by
    apply matchDiskAlpha_false_of_take_ne
    rw [show sdPre.length = 7 from rfl, List.take_left' (show vdPre.length = 7 from rfl)]
    decide
  have hxvd : matchDiskAlpha xvdPre (vdPre ++ [c]) = false := by
    apply matchDiskAlpha_false_of_take_ne
    rw [show xvdPre.length = 8 from rfl, ← hlen, List.take_length]
    exact hne_x
  have hb1 : matchDiskAlpha sdPre (((vdPre ++ [c]) ++ natToDigits k).take 8)
      = false := by
    apply matchDiskAlpha_false_of_take_ne
    rw [show sdPre.length = 7 from rfl, List.take_take, show min 7 8 = 7 from rfl,
      List.append_assoc,
      List.take_append_of_le_length (by rw [show vdPre.length = 7 from rfl])]
    decide
  have hb2 : matchDiskAlpha xvdPre (((vdPre ++ [c]) ++ natToDigits k).take 9)
      = false := by
    apply matchDiskAlpha_false_of_take_ne
    rw [show xvdPre.length = 8 from rfl, List.take_take, show min 8 9 = 8 from rfl,
      List.take_append_of_le_length (by rw [hlen] : 8 ≤ (vdPre ++ [c]).length),
      ← hlen, List.take_length]
    exact hne_x
  unfold devPathDiskToPartition
  rw [hsd, hxvd, hm]
  simp only [Bool.false_eq_true, if_false, if_true]
  show devPathPartitionToDiskAndPartitionId ((vdPre ++ [c]) ++ natToDigits k)
      = some (vdPre ++ [c], k)
  unfold devPathPartitionToDiskAndPartitionId
  rw [hb1, hb2, List.take_left' hlen, List.drop_left' hlen, hm, allDigits_natToDigits,
    digitsToNat_natToDigits]
  simp

theorem roundtrip_nvme (d1 d2 : List Char) (k : Nat)
    (h1 : d1 ≠ []) (h2 : d2 ≠ [])
    (ha1 : d1.all isDigitChar = true) (ha2 : d2.all isDigitChar = true) :
    (devPathDiskToPartition (nvmePre ++ (d1 ++ 'n' :: d2)) k).bind
        devPathPartitionToDiskAndPartitionId
      = some (nvmePre ++ (d1 ++ 'n' :: d2), k) := by
  have hsp1 : splitDigits (d1 ++ 'n' :: d2) = (d1, 'n' :: d2) :=
    splitDigits_append _ _ ha1 (by intro c cs h; cases h; decide)
  have hsp2 : splitDigits d2 = (d2, []) := splitDigits_all d2 ha2
  have hd1e : d1.isEmpty = false := List.isEmpty_eq_false.mpr h1
  have hd2e : d2.isEmpty = false := List.isEmpty_eq_false.mpr h2
  have bb1 : matchDiskAlpha sdPre (nvmePre ++ (d1 ++ 'n' :: d2)) = false := by
    apply matchDiskAlpha_false_of_take_ne
    rw [show sdPre.length = 7 from rfl,
      List.take_append_of_le_length (by rw [show nvmePre.length = 9 from rfl]; omega)]
    decide
  have bb2 : matchDiskAlpha xvdPre (nvmePre ++ (d1 ++ 'n' :: d2)) = false := by
    apply matchDiskAlpha_false_of_take_ne
    rw [show xvdPre.length = 8 from rfl,
      List.take_append_of_le_length (by rw [show nvmePre.length = 9 from rfl]; omega)]
    decide
  have bb3 : matchDiskAlpha vdPre (nvmePre ++ (d1 ++ 'n' :: d2)) = false := by
    apply matchDiskAlpha_false_of_take_ne
    rw [show vdPre.length = 7 from rfl,
      List.take_append_of_le_length (by rw [show nvmePre.length = 9 from rfl]; omega)]
    decide
  have bb4 : matchNvmeDisk (nvmePre ++ (d1 ++ 'n' :: d2)) = true := by
    unfold matchNvmeDisk
    rw [List.take_left' (show nvmePre.length = 9 from rfl),
      List.drop_left' (show nvmePre.length = 9 from rfl), hsp1]
    simp [hsp2, hd1e, hd2e]
  unfold devPathDiskToPartition
  rw [bb1, bb2, bb3, bb4]
  simp only [Bool.false_eq_true, if_false, if_true]
  show devPathPartitionToDiskAndPartitionId
      ((nvmePre ++ (d1 ++ 'n' :: d2)) ++ 'p' :: natToDigits k)
      = some (nvmePre ++ (d1 ++ 'n' :: d2), k)
  have hassoc : (nvmePre ++ (d1 ++ 'n' :: d2)) ++ 'p' :: natToDigits k
      = nvmePre ++ ((d1 ++ 'n' :: d2) ++ 'p' :: natToDigits k) := by
    rw [List.append_assoc]
  have pb1 : matchDiskAlpha sdPre
      (((nvmePre ++ (d1 ++ 'n' :: d2)) ++ 'p' :: natToDigits k).take 8) = false := by
    apply matchDiskAlpha_false_of_take_ne
    rw [show sdPre.length = 7 from rfl, List.take_take, show min 7 8 = 7 from rfl,
      hassoc,
      List.take_append_of_le_length (by rw [show nvmePre.length = 9 from rfl]; omega)]
    decide
  have pb2 : matchDiskAlpha xvdPre
      (((nvmePre ++ (d1 ++ 'n' :: d2)) ++ 'p' :: natToDigits k).take 9) = false := by
    apply matchDiskAlpha_false_of_take_ne
    rw [show xvdPre.length = 8 from rfl, List.take_take, show min 8 9 = 8 from rfl,
      hassoc,
      List.take_append_of_le_length (by rw [show nvmePre.length = 9 from rfl]; omega)]
    decide
  have pb3 : matchDiskAlpha vdPre
      (((nvmePre ++ (d1 ++ 'n' :: d2)) ++ 'p' :: natToDigits k).take 8) = false := by
    apply matchDiskAlpha_false_of_take_ne
    rw [show vdPre.length = 7 from rfl, List.take_take, show min 7 8 = 7 from rfl,
      hassoc,
      List.take_append_of_le_length (by rw [show nvmePre.length = 9 from rfl]; omega)]
    decide
  have pb4 : ((nvmePre ++ (d1 ++ 'n' :: d2)) ++ 'p' :: natToDigits k).take 9
      = nvmePre := by
    rw [hassoc]
    exact List.take_left' rfl
  have pbdrop : ((nvmePre ++ (d1 ++ 'n' :: d2)) ++ 'p' :: natToDigits k).drop 9
      = d1 ++ 'n' :: (d2 ++ 'p' :: natToDigits k) := by
    rw [hassoc, List.drop_left' (show nvmePre.length = 9 from rfl),
      List.append_assoc, List.cons_append]
  have psp1 : splitDigits (d1 ++ 'n' :: (d2 ++ 'p' :: natToDigits k))
      = (d1, 'n' :: (d2 ++ 'p' :: natToDigits k)) :=
    splitDigits_append _ _ ha1 (by intro c cs h; cases h; decide)
  have psp2 : splitDigits (d2 ++ 'p' :: natToDigits k)
      = (d2, 'p' :: natToDigits k) :=
    splitDigits_append _ _ ha2 (by intro c cs h; cases h; decide)
  have hdl : (nvmePre ++ (d1 ++ 'n' :: d2)).length
      = 9 + d1.length + 1 + d2.length := by
    rw [List.length_append, List.length_append, List.length_cons,
      show nvmePre.length = 9 from rfl]
    omega
  have hassoc2 : (nvmePre ++ (d1 ++ 'n' :: d2)) ++ 'p' :: natToDigits k
      = nvmePre ++ (d1 ++ 'n' :: (d2 ++ 'p' :: natToDigits k)) := by
    rw [hassoc, List.append_assoc, List.cons_append]
  unfold devPathPartitionToDiskAndPartitionId
  rw [pb1, pb2, pb3, pb4, pbdrop, psp1]
  simp only [psp2, hd1e, hd2e, allDigits_natToDigits, digitsToNat_natToDigits,
    Bool.false_and, Bool.false_eq_true, if_false, Bool.not_false, if_true,
    beq_self_eq_true, List.isEmpty_nil, Option.some.injEq, Prod.mk.injEq]
  refine ⟨List.take_left' hdl, trivial⟩

/-- The disk alternatives of `devPathIsDiskOrPartition`: the path is one of
`/dev/sd[a-z]`, `/dev/xvd[a-z]`, `/dev/vd[a-z]`, `/dev/nvme[0-9]+n[0-9]+`. -/
def isDiskPath (s : List Char) : Bool :=
  matchDiskAlpha sdPre s || matchDiskAlpha xvdPre s || matchDiskAlpha vdPre s
    || matchNvmeDisk s

/-- **C10.**  For every supported disk device path `d` (forms `/dev/sd[a-z]`,
`/dev/xvd[a-z]`, `/dev/vd[a-z]`, `/dev/nvme<n>n<m>`) and every positive
partition id `k`, `devPathPartitionToDiskAndPartitionId
(devPathDiskToPartition d k) = (d, k)`: building a partition path and
splitting it back round-trips exactly. -/
theorem C10_disk_partition_roundtrip (d : List Char) (k : Nat)
    (hd : isDiskPath d = true) (_hk : 1 ≤ k) :
    (devPathDiskToPartition d k).bind devPathPartitionToDiskAndPartitionId
      = some (d, k) := by
  unfold isDiskPath at hd
  rw [Bool.or_eq_true, Bool.or_eq_true, Bool.or_eq_true] at hd
  rcases hd with ((h | h) | h) | h
  · obtain ⟨c, rfl, hc⟩ := matchDiskAlpha_inv _ _ h
    exact roundtrip_sd c k hc
  · obtain ⟨c, rfl, hc⟩ := matchDiskAlpha_inv _ _ h
    exact roundtrip_xvd c k hc
  · obtain ⟨c, rfl, hc⟩ := matchDiskAlpha_inv _ _ h
    exact roundtrip_vd c k hc
  · obtain ⟨d1, d2, rfl, h1, h2, ha1, ha2⟩ := matchNvmeDisk_inv _ h
    exact roundtrip_nvme d1 d2 k h1 h2 ha1 ha2

/-- Witness for `C10_disk_partition_roundtrip` at `/dev/sda`, partition 1. -/
theorem C10_witness :
    isDiskPath (sdPre ++ ['a']) = true ∧ 1 ≤ 1
      ∧ (devPathDiskToPartition (sdPre ++ ['a']) 1).bind
          devPathPartitionToDiskAndPartitionId = some (sdPre ++ ['a'], 1) :=
  ⟨by decide, by decide,
    C10_disk_partition_roundtrip (sdPre ++ ['a']) 1 (by decide) (by decide)⟩

/-! ## PartitionTableCodec (`gptNewGuid`, `gptIsEspPartition` in `util.py`) -/

/-- `[0-9a-fA-F]`. -/
def isHexDigitChar (c : Char) : Bool :=
  isDigitChar c || ('a' ≤ c && c ≤ 'f') || ('A' ≤ c && c ≤ 'F')

/-- The value of one hex digit. -/
def hexDigitVal (c : Char) : Nat :=
  if isDigitChar c then c.toNat - 48
  else if 'a' ≤ c && c ≤ 'f' then c.toNat - 87
  else if 'A' ≤ c && c ≤ 'F' then c.toNat - 55
  else 0

/-- Hex-string value (the `exec("n = 0x" + slice)` parses in `gptNewGuid`). -/
def hexVal (cs : List Char) : Nat :=
  cs.foldl (fun acc c => acc * 16 + hexDigitVal c) 0

/-- `gptNewGuid(guidStr)`: convert canonical GUID text to the on-disk 16-byte
mixed-endian form, `struct.pack "IHHBB6s"` (native little-endian, no
padding): `time_low`/`time_mid`/`time_hi_and_version` little-endian, the
clock-sequence bytes and the node bytes kept in text order.  `none` models
the length/dash assertions and a hex parse failure. -/
def gptNewGuid (guidStr : List Char) : Option (List Nat) :=
  if guidStr.length ≠ 36 then none
  else if ¬(guidStr.get? 8 = some '-' ∧ guidStr.get? 13 = some '-'
      ∧ guidStr.get? 18 = some '-' ∧ guidStr.get? 23 = some '-') then none
  else
    -- guidStr.replace("-", "")
    let h := guidStr.filter (fun c => c != '-')
    if ¬(h.length = 32 ∧ h.all isHexDigitChar = true) then none
    else
      some (leBytes 4 (hexVal (h.take 8))
        ++ leBytes 2 (hexVal ((h.drop 8).take 4))
        ++ leBytes 2 (hexVal ((h.drop 12).take 4))
        ++ [hexVal ((h.drop 16).take 2)]
        ++ [hexVal ((h.drop 18).take 2)]
        ++ (List.range 6).map (fun i => hexVal ((h.drop (20 + i * 2)).take 2)))

/-- The canonical ESP type GUID text, `C12A7328-F81F-11D2-BA4B-00A0C93EC93B`. -/
def espGuidStr : List Char :=
  ['C', '1', '2', 'A', '7', '3', '2', '8', '-', 'F', '8', '1', 'F', '-',
   '1', '1', 'D', '2', '-', 'B', 'A', '4', 'B', '-', '0', '0', 'A', '0',
   'C', '9', '3', 'E', 'C', '9', '3', 'B']

/-- `gptNewGuid("C12A7328-F81F-11D2-BA4B-00A0C93EC93B")`, the comparison
constant in `gptIsEspPartition`. -/
def espGuid : List Nat := (gptNewGuid espGuidStr).getD []

/-- Read `k` bytes from a device modeled as a byte function (offset ↦ byte). -/
def readBytesF (disk : Nat → Nat) (off k : Nat) : List Nat :=
  (List.range k).map (fun i => disk (off + i))

/-- Little-endian read of `k` bytes from a device byte function. -/
def leReadF (disk : Nat → Nat) (off k : Nat) : Nat :=
  (List.range k).foldr (fun i acc => acc * 256 + disk (off + i)) 0

/-- The body of `gptIsEspPartition` once the disk is open: `disk` is the
whole-disk contents (byte offset ↦ byte value), `partId` the parsed
partition number.  Field offsets follow the struct formats in the source:
the protective-MBR signature is the `H` at byte 510 (`mbrHeader[4]`), the
four partition records begin at byte 446 with `os_type` at record offset 4,
the GPT header fills sector 1 with `partition_entry_lba` (`gptHeader[10]`)
at header offset 72, and a `gpt_entry` is 128 bytes whose leading 16 bytes
are the type GUID. -/
def gptIsEspPartition (disk : Nat → Nat) (partId : Nat) : Bool :=
  -- check protective MBR header
  if leReadF disk 510 2 ≠ 0xAA55 then false
  else
    -- check protective MBR partition entries for os_type 0xEE
    let found := (List.range 4).any (fun i => disk (446 + 16 * i + 4) == 0xEE)
    if found = false then false
    else
      -- read the specified GPT partition entry and check its type GUID
      let entryLba := leReadF disk (512 + 72) 8
      if readBytesF disk (entryLba * 512 + 128 * (partId - 1)) 16 ≠ espGuid then
        false
      else true

/-- `gptIsEspPartition(devPath)` from the partition path on: split the path
into disk and partition id, then run the on-disk checks against that disk's
contents (`contents` maps a disk path to its bytes).  `none` models the
`assert False` for an unparsable path. -/
def gptIsEspPartitionPath (contents : List Char → Nat → Nat)
    (devPath : List Char) : Option Bool :=
  match devPathPartitionToDiskAndPartitionId devPath with
  | none => none
  | some (diskDevPath, partId) => some (gptIsEspPartition (contents diskDevPath) partId)

example : espGuid = [0x28, 0x73, 0x2A, 0xC1, 0x1F, 0xF8, 0xD2, 0x11,
    0xBA, 0x4B, 0x00, 0xA0, 0xC9, 0x3E, 0xC9, 0x3B] := by decide

/-- The ESP test as the spec words it (spec-side formalization, to compare
with the embedded `gptIsEspPartition`): the disk's first sector carries the
protective-MBR signature 0xAA55; some of the four MBR partition-record
slots has OS type 0xEE; and the GPT partition entry for index `k` — read at
byte offset (header-stated partition-entry LBA × 512) + entry-size ×
(k − 1), entry size 128 — has a type GUID equal to
C12A7328-F81F-11D2-BA4B-00A0C93EC93B converted to on-disk mixed-endian form
(first three fields little-endian, last two kept as bytes), written out
here as the explicit 16 bytes. -/
def gptIsEspPartitionSpec (disk : Nat → Nat) (k : Nat) : Prop :=
  leReadF disk 510 2 = 0xAA55
    ∧ (∃ i < 4, disk (446 + 16 * i + 4) = 0xEE)
    ∧ readBytesF disk (leReadF disk (512 + 72) 8 * 512 + 128 * (k - 1)) 16
        = [0x28, 0x73, 0x2A, 0xC1, 0x1F, 0xF8, 0xD2, 0x11,
           0xBA, 0x4B, 0x00, 0xA0, 0xC9, 0x3E, 0xC9, 0x3B]

theorem gptIsEspPartition_eq (disk : Nat → Nat) (k : Nat) :
    gptIsEspPartition disk k
      = ((leReadF disk 510 2 == 0xAA55)
        && ((List.range 4).any fun i => disk (446 + 16 * i + 4) == 0xEE)
        && (readBytesF disk (leReadF disk (512 + 72) 8 * 512 + 128 * (k - 1)) 16
            == espGuid)) := by
  unfold gptIsEspPartition
  by_cases h1 : leReadF disk 510 2 = 0xAA55 <;>
    by_cases h2 : ((List.range 4).any fun i => disk (446 + 16 * i + 4) == 0xEE)
      = true <;>
    by_cases h3 : readBytesF disk (leReadF disk (512 + 72) 8 * 512 + 128 * (k - 1)) 16
      = espGuid <;>
    simp [h1, h2, h3]

theorem gptIsEspPartition_iff_spec (disk : Nat → Nat) (k : Nat) :
    gptIsEspPartition disk k = true ↔ gptIsEspPartitionSpec disk k := by
  have hguid : espGuid = [0x28, 0x73, 0x2A, 0xC1, 0x1F, 0xF8, 0xD2, 0x11,
      0xBA, 0x4B, 0x00, 0xA0, 0xC9, 0x3E, 0xC9, 0x3B] := by decide
  have hany : ((List.range 4).any (fun i => disk (446 + 16 * i + 4) == 0xEE) = true)
      ↔ (∃ i < 4, disk (446 + 16 * i + 4) = 0xEE) := by
    rw [List.any_eq_true]
    constructor
    · rintro ⟨i, hi, hbeq⟩
      exact ⟨i, List.mem_range.mp hi, beq_iff_eq.mp hbeq⟩
    · rintro ⟨i, hi, heq⟩
      exact ⟨i, List.mem_range.mpr hi, beq_iff_eq.mpr heq⟩
  rw [gptIsEspPartition_eq, hguid]
  unfold gptIsEspPartitionSpec
  rw [Bool.and_eq_true, Bool.and_eq_true, beq_iff_eq, beq_iff_eq, hany, and_assoc]

/-- **C5.**  For every partition device path of the supported
`(disk)(partition-number)` forms, parsed as disk `dk.1` and index `dk.2`,
the ESP test on that disk's contents returns true iff: the first sector
carries the protective-MBR signature 0xAA55, some of the four MBR
partition-record slots has OS type 0xEE, and the GPT partition entry for the
parsed index — at byte offset (header-stated partition-entry LBA × 512) +
128 × (index − 1) — has the ESP type GUID in on-disk mixed-endian form. -/
theorem C5_esp_test_characterization (contents : List Char → Nat → Nat)
    (devPath : List Char) (dk : List Char × Nat)
    (hp : devPathPartitionToDiskAndPartitionId devPath = some dk) :
    gptIsEspPartitionPath contents devPath = some true
      ↔ gptIsEspPartitionSpec (contents dk.1) dk.2 := by
  unfold gptIsEspPartitionPath
  rw [hp]
  rw [show (some (gptIsEspPartition (contents dk.1) dk.2) = some true)
      ↔ (gptIsEspPartition (contents dk.1) dk.2 = true) from Option.some_inj]
  exact gptIsEspPartition_iff_spec _ _

/-- Witness for `C5_esp_test_characterization` at `/dev/sdb2` over an
all-zero disk. -/
theorem C5_witness :
    devPathPartitionToDiskAndPartitionId (sdPre ++ ['b', '2'])
        = some (sdPre ++ ['b'], 2)
      ∧ (gptIsEspPartitionPath (fun _ _ => 0) (sdPre ++ ['b', '2']) = some true
          ↔ gptIsEspPartitionSpec (fun _ => 0) 2) :=
  ⟨by decide, C5_esp_test_characterization (fun _ _ => 0) (sdPre ++ ['b', '2'])
    (sdPre ++ ['b'], 2) (by decide)⟩

/-! ## DetectionEngine (`get_current_storage_layout`,
`_parseOneStorageLayout`, `get_supported_storage_layouts` in `core.py`) -/

/-- `s.startswith(pre)` via character lists. -/
def strStartsWith (pre s : String) : Bool :=
  s.data.take pre.data.length == pre.data

/-- Modelled from the spec: `Util.modName2layoutName` is not part of the
source snapshot; §6 fixes the naming rule (firmware-mode + redundancy +
volume-manager + filesystem tokens), so the layout name is the module name
with the `layout_` prefix stripped and token separators hyphenated
(`layout_efi_bcache_lvm_ext4` ↦ `efi-bcache-lvm-ext4`). -/
def modName2layoutName (m : String) : String :=
  String.mk ((m.data.drop 7).map (fun c => if c = '_' then '-' else c))

/-- Modelled from the spec: `Util.layoutName2modName`, the inverse token
mapping (`efi-bcache-lvm-ext4` ↦ `layout_efi_bcache_lvm_ext4`). -/
def layoutName2modName (n : String) : String :=
  String.mk ('l' :: 'a' :: 'y' :: 'o' :: 'u' :: 't' :: '_'
    :: n.data.map (fun c => if c = '-' then '_' else c))

/-- Modelled from the spec: `Util.anyIn(xs, ys)` — the "only
catalog-registered variants are probed" membership test of §4.2: some
element of `xs` occurs in `ys`. -/
def anyIn (xs ys : List String) : Bool := xs.any (fun x => ys.contains x)

/-- `re.fullmatch("/dev/bcache[0-9]+", x)` as used on slave-device lists. -/
def isBcacheDevPath (s : String) : Bool :=
  s.data.take 11 == "/dev/bcache".data && !(s.data.drop 11).isEmpty
    && (s.data.drop 11).all isDigitChar

/-- `get_supported_storage_layouts()`: the names of the `layout_*` modules
present in the build. -/
def get_supported_storage_layouts (modules : List String) : List String :=
  (modules.filter (fun m => strStartsWith "layout_" m)).map modName2layoutName

/-- A `StorageLayoutParseError(layout_name, message)`. -/
abbrev ParseErr := String × String

/-- The environment `get_current_storage_layout` runs against: the Python
modules present (`pkgutil.iter_modules`), the mounted root/boot devices and
root filesystem type (`psutil.disk_partitions`; the root mount is asserted
to exist), `Util.getBlkDevLvmInfo`, `LvmUtil.getSlaveDevPathList`,
`BtrfsUtil.getSlaveDevPathList`, and each layout module's `parse` entry
point (`α` is the layout-instance type; a parse that raises
`StorageLayoutParseError` is `.error`). -/
structure DetectEnv (α : Type) where
  modules : List String
  rootDev : String
  rootDevFs : String
  bootDev : Option String
  lvmInfo : String → Option (String × String)
  lvmSlaves : String → List String
  btrfsSlaves : String → List String
  parse : String → Except ParseErr α

/-- `_parseOneStorageLayout(layoutName, bootDev, rootDev)`: import the
layout's module and call its `parse`; a `ModuleNotFoundError` is reported
as `StorageLayoutParseError("", "unknown storage layout")`. -/
def parseOneStorageLayout {α : Type} (env : DetectEnv α) (layoutName : String) :
    Except ParseErr α :=
  if env.modules.contains (layoutName2modName layoutName) then env.parse layoutName
  else .error ("", "unknown storage layout")

/-- `get_current_storage_layout()`: ordered, short-circuiting probes —
bcachefs, then btrfs (cache first), then LVM (cache first), then plain EFI
when a boot device is mounted; LVM then plain for BIOS; the final raise is
`StorageLayoutParseError("", "unknown storage layout")`. -/
def get_current_storage_layout {α : Type} (env : DetectEnv α) :
    Except ParseErr α :=
  let allLayoutNames := get_supported_storage_layouts env.modules
  match env.bootDev with
  | some _ =>
    -- bcachefs related
    if anyIn ["efi-bcachefs"] allLayoutNames && (env.rootDevFs == "bcachefs") then
      parseOneStorageLayout env "efi-bcachefs"
    -- btrfs related
    else if anyIn ["efi-bcache-btrfs", "efi-btrfs"] allLayoutNames
        && (env.rootDevFs == "btrfs") then
      (if (env.btrfsSlaves env.rootDev).any isBcacheDevPath then
        parseOneStorageLayout env "efi-bcache-btrfs"
      else
        parseOneStorageLayout env "efi-btrfs")
    else
      -- lvm related: getBlkDevLvmInfo is only called when one of the lvm
      -- layouts is supported
      match (if anyIn ["efi-bcache-lvm-ext4", "efi-lvm-ext4"] allLayoutNames
          then env.lvmInfo env.rootDev else none) with
      | some lvmInfo =>
        if (env.lvmSlaves lvmInfo.1).any isBcacheDevPath then
          parseOneStorageLayout env "efi-bcache-lvm-ext4"
        else
          parseOneStorageLayout env "efi-lvm-ext4"
      | none =>
        -- simplest layout
        if anyIn ["efi-ext4"] allLayoutNames then
          parseOneStorageLayout env "efi-ext4"
        else .error ("", "unknown storage layout")
  | none =>
    -- lvm related
    if anyIn ["bios-lvm-ext4"] allLayoutNames
        && (env.lvmInfo env.rootDev).isSome then
      parseOneStorageLayout env "bios-lvm-ext4"
    -- simplest layout
    else if anyIn ["bios-ext4"] allLayoutNames then
      parseOneStorageLayout env "bios-ext4"
    else .error ("", "unknown storage layout")

/-- The probe `get_current_storage_layout` dispatches to: the same branch
structure, but returning the target layout's name at each return site and
`none` at the final "unknown storage layout" raise
(see `get_current_eq_selected`). -/
def selectedLayout {α : Type} (env : DetectEnv α) : Option String :=
  let allLayoutNames := get_supported_storage_layouts env.modules
  match env.bootDev with
  | some _ =>
    if anyIn ["efi-bcachefs"] allLayoutNames && (env.rootDevFs == "bcachefs") then
      some "efi-bcachefs"
    else if anyIn ["efi-bcache-btrfs", "efi-btrfs"] allLayoutNames
        && (env.rootDevFs == "btrfs") then
      (if (env.btrfsSlaves env.rootDev).any isBcacheDevPath then
        some "efi-bcache-btrfs"
      else some "efi-btrfs")
    else
      match (if anyIn ["efi-bcache-lvm-ext4", "efi-lvm-ext4"] allLayoutNames
          then env.lvmInfo env.rootDev else none) with
      | some lvmInfo =>
        if (env.lvmSlaves lvmInfo.1).any isBcacheDevPath then
          some "efi-bcache-lvm-ext4"
        else some "efi-lvm-ext4"
      | none =>
        if anyIn ["efi-ext4"] allLayoutNames then some "efi-ext4" else none
  | none =>
    if anyIn ["bios-lvm-ext4"] allLayoutNames
        && (env.lvmInfo env.rootDev).isSome then
      some "bios-lvm-ext4"
    else if anyIn ["bios-ext4"] allLayoutNames then some "bios-ext4"
    else none

theorem get_current_eq_selected {α : Type} (env : DetectEnv α) :
    get_current_storage_layout env
      = match selectedLayout env with
        | some n => parseOneStorageLayout env n
        | none => .error ("", "unknown storage layout") := by
  unfold get_current_storage_layout selectedLayout
  simp only
  cases env.bootDev with
  | none =>
    by_cases h1 : (anyIn ["bios-lvm-ext4"] (get_supported_storage_layouts env.modules)
        && (env.lvmInfo env.rootDev).isSome) = true
    · simp only [h1, if_true]
    · rw [Bool.not_eq_true] at h1
      simp only [h1, Bool.false_eq_true, if_false]
      by_cases h2 : anyIn ["bios-ext4"] (get_supported_storage_layouts env.modules)
          = true
      · simp only [h2, if_true]
      · rw [Bool.not_eq_true] at h2
        simp only [h2, Bool.false_eq_true, if_false]
  | some b =>
    by_cases h1 : (anyIn ["efi-bcachefs"] (get_supported_storage_layouts env.modules)
        && (env.rootDevFs == "bcachefs")) = true
    · simp only [h1, if_true]
    · rw [Bool.not_eq_true] at h1
      simp only [h1, Bool.false_eq_true, if_false]
      by_cases h2 : (anyIn ["efi-bcache-btrfs", "efi-btrfs"]
          (get_supported_storage_layouts env.modules)
          && (env.rootDevFs == "btrfs")) = true
      · simp only [h2, if_true]
        by_cases h3 : (env.btrfsSlaves env.rootDev).any isBcacheDevPath = true
        · simp only [h3, if_true]
        · rw [Bool.not_eq_true] at h3
          simp only [h3, Bool.false_eq_true, if_false]
      · rw [Bool.not_eq_true] at h2
        simp only [h2, Bool.false_eq_true, if_false]
        rcases hlv : (if anyIn ["efi-bcache-lvm-ext4", "efi-lvm-ext4"]
            (get_supported_storage_layouts env.modules) = true
            then env.lvmInfo env.rootDev else none) with _ | p
        · simp only [hlv]
          by_cases h4 : anyIn ["efi-ext4"] (get_supported_storage_layouts env.modules)
              = true
          · simp only [h4, if_true]
          · rw [Bool.not_eq_true] at h4
            simp only [h4, Bool.false_eq_true, if_false]
        · simp only [hlv]
          by_cases h5 : (env.lvmSlaves p.1).any isBcacheDevPath = true
          · simp only [h5, if_true]
          · rw [Bool.not_eq_true] at h5
            simp only [h5, Bool.false_eq_true, if_false]

/-- The `layout_*` (and other) modules present in this source snapshot. -/
def buildModules : List String :=
  ["layout_bios_lvm", "layout_bios_ext4", "layout_efi_bcache_lvm_ext4",
   "x_layout_efi_btrfs", "core", "util"]

/-- A concrete detection environment: EFI boot device mounted, root on the
LVM root logical volume, its volume group backed by a bcache physical
volume — and a layout `parse` that fails internally. -/
def envC2 : DetectEnv Unit :=
  { modules := buildModules
    rootDev := "/dev/mapper/hdd.root"
    rootDevFs := "ext4"
    bootDev := some "/dev/sda1"
    lvmInfo := fun _ => some ("hdd", "root")
    lvmSlaves := fun _ => ["/dev/bcache0"]
    btrfsSlaves := fun _ => []
    parse := fun n => .error (n, "parse failed internally") }

/-- **C2, counterexample.**  The claim says a probe's internal parse failure
is treated as a negative match and detection moves on to the next probe.
It is false: `get_current_storage_layout` returns the first structurally
matching probe's `parse` result directly, so in `envC2` the internal
failure of the `efi-bcache-lvm-ext4` parse surfaces as detection's own
outcome (no later probe runs, and the error is the probe's, not the
distinct all-probes-failed report the claim describes). -/
theorem C2_counterexample :
    get_current_storage_layout envC2
      = .error ("efi-bcache-lvm-ext4", "parse failed internally") := by rfl

/-- **C2 (amended).**  Detection does not swallow a probe's internal parse
failure: whenever the cache+LVM probe is the structurally matching one
(boot device mounted, root on LVM, a bcache physical volume in its volume
group, with this build's module set) and that variant's `parse` raises,
`get_current_storage_layout` raises that same error — it does not move on
to the next probe; "unknown storage layout" is reported only when no
probe's structural precondition matches. -/
theorem C2_parse_failure_propagates {α : Type} (env : DetectEnv α)
    (b vg lv : String) (e : ParseErr)
    (hmods : env.modules = buildModules)
    (hboot : env.bootDev = some b)
    (hlvm : env.lvmInfo env.rootDev = some (vg, lv))
    (hslaves : (env.lvmSlaves vg).any isBcacheDevPath = true)
    (hparse : env.parse "efi-bcache-lvm-ext4" = .error e) :
    get_current_storage_layout env = .error e := by
  have h1 : anyIn ["efi-bcachefs"] (get_supported_storage_layouts buildModules)
      = false := by decide
  have h2 : anyIn ["efi-bcache-btrfs", "efi-btrfs"]
      (get_supported_storage_layouts buildModules) = false := by decide
  have h3 : anyIn ["efi-bcache-lvm-ext4", "efi-lvm-ext4"]
      (get_supported_storage_layouts buildModules) = true := by decide
  have h4 : buildModules.contains (layoutName2modName "efi-bcache-lvm-ext4")
      = true := by decide
  unfold get_current_storage_layout parseOneStorageLayout
  rw [hmods, hboot]
  simp only [h1, h2, h3, h4, Bool.false_and, Bool.false_eq_true, if_false,
    if_true, hlvm, hslaves, hparse]

/-- Witness for `C2_parse_failure_propagates` at `envC2`. -/
theorem C2_amended_witness :
    envC2.modules = buildModules
      ∧ envC2.bootDev = some "/dev/sda1"
      ∧ envC2.lvmInfo envC2.rootDev = some ("hdd", "root")
      ∧ (envC2.lvmSlaves "hdd").any isBcacheDevPath = true
      ∧ envC2.parse "efi-bcache-lvm-ext4"
          = .error ("efi-bcache-lvm-ext4", "parse failed internally")
      ∧ get_current_storage_layout envC2
          = .error ("efi-bcache-lvm-ext4", "parse failed internally") :=
  ⟨rfl, rfl, rfl, by decide, rfl,
    C2_parse_failure_propagates envC2 "/dev/sda1" "hdd" "root"
      ("efi-bcache-lvm-ext4", "parse failed internally")
      rfl rfl rfl (by decide) rfl⟩

/-- **C3.**  With this build's module set and an EFI boot device mounted:
(a) whenever the mounted root device is an LVM logical volume whose
physical volumes are all cache-composed (`/dev/bcache<n>`) devices (and
there is at least one), detection dispatches to the cache+LVM variant
`efi-bcache-lvm-ext4` — its `parse` is invoked — and the selected probe is
never the plain-LVM variant `efi-lvm-ext4`; (b) the plain-LVM variant is
selected exactly when root is an LVM logical volume none of whose physical
volumes is cache-composed. -/
theorem C3_cache_lvm_preferred_over_plain_lvm {α : Type} (env : DetectEnv α)
    (b : String)
    (hmods : env.modules = buildModules)
    (hboot : env.bootDev = some b) :
    (∀ vg lv, env.lvmInfo env.rootDev = some (vg, lv) →
      env.lvmSlaves vg ≠ [] →
      (∀ x ∈ env.lvmSlaves vg, isBcacheDevPath x = true) →
      get_current_storage_layout env = env.parse "efi-bcache-lvm-ext4"
        ∧ selectedLayout env = some "efi-bcache-lvm-ext4")
    ∧ (selectedLayout env = some "efi-lvm-ext4"
        ↔ ∃ p : String × String, env.lvmInfo env.rootDev = some p
            ∧ (env.lvmSlaves p.1).any isBcacheDevPath = false) := by
  have h1 : anyIn ["efi-bcachefs"] (get_supported_storage_layouts buildModules)
      = false := by decide
  have h2 : anyIn ["efi-bcache-btrfs", "efi-btrfs"]
      (get_supported_storage_layouts buildModules) = false := by decide
  have h3 : anyIn ["efi-bcache-lvm-ext4", "efi-lvm-ext4"]
      (get_supported_storage_layouts buildModules) = true := by decide
  have h4 : buildModules.contains (layoutName2modName "efi-bcache-lvm-ext4")
      = true := by decide
  have h5 : anyIn ["efi-ext4"] (get_supported_storage_layouts buildModules)
      = false := by decide
  constructor
  · intro vg lv hlvm hne hall
    have hany : (env.lvmSlaves vg).any isBcacheDevPath = true := by
      rw [List.any_eq_true]
      rcases hx : env.lvmSlaves vg with _ | ⟨x, xs⟩
      · exact absurd hx hne
      · exact ⟨x, List.mem_cons_self _ _,
          hall x (by rw [hx]; exact List.mem_cons_self _ _)⟩
    constructor
    · unfold get_current_storage_layout parseOneStorageLayout
      rw [hmods, hboot]
      simp only [h1, h2, h3, h4, Bool.false_and, Bool.false_eq_true, if_false,
        if_true, hlvm, hany]
    · unfold selectedLayout
      rw [hmods, hboot]
      simp only [h1, h2, h3, Bool.false_and, Bool.false_eq_true, if_false,
        if_true, hlvm, hany]
  · unfold selectedLayout
    rw [hmods, hboot]
    simp only [h1, h2, h3, Bool.false_and, Bool.false_eq_true, if_false, if_true]
    rcases hlvm : env.lvmInfo env.rootDev with _ | p
    · simp only [h5, Bool.false_eq_true, if_false]
      constructor
      · intro h
        exact Option.noConfusion h
      · rintro ⟨p, hp, _⟩
        exact Option.noConfusion hp
    · cases hany : (env.lvmSlaves p.1).any isBcacheDevPath with
      | true =>
        simp only [hany, if_true]
        constructor
        · intro h
          exact absurd (Option.some_inj.mp h) (by decide)
        · rintro ⟨q, hq, hqf⟩
          rw [Option.some_inj.mp hq] at hany
          rw [hany] at hqf
          exact Bool.noConfusion hqf
      | false =>
        simp only [hany, Bool.false_eq_true, if_false]
        refine ⟨fun _ => ⟨p, rfl, hany⟩, fun _ => ?_⟩
        trivial

/-- A concrete environment for the C3 witness: root on LVM with a single,
bcache-composed physical volume. -/
def envC3 : DetectEnv Nat :=
  { modules := buildModules
    rootDev := "/dev/mapper/hdd.root"
    rootDevFs := "ext4"
    bootDev := some "/dev/sdb1"
    lvmInfo := fun _ => some ("hdd", "root")
    lvmSlaves := fun _ => ["/dev/bcache0"]
    btrfsSlaves := fun _ => []
    parse := fun _ => .ok 7 }

/-- Witness for `C3_cache_lvm_preferred_over_plain_lvm` at `envC3`. -/
theorem C3_witness :
    envC3.modules = buildModules
      ∧ envC3.bootDev = some "/dev/sdb1"
      ∧ envC3.lvmInfo envC3.rootDev = some ("hdd", "root")
      ∧ get_current_storage_layout envC3 = envC3.parse "efi-bcache-lvm-ext4"
      ∧ selectedLayout envC3 = some "efi-bcache-lvm-ext4" := by
  have h := (C3_cache_lvm_preferred_over_plain_lvm envC3 "/dev/sdb1" rfl rfl).1
    "hdd" "root" rfl (by decide) (by decide)
  exact ⟨rfl, rfl, rfl, h.1, h.2⟩

/-! ### Whole-disk partition initialization: `initializeDisk` (util.py).

The parted library (pyparted) is external to this repository; its
primitives are modelled from that library's documented behaviour: a fresh
GPT disk exposes one free region over the usable LBA range,
`startAlign.alignUp` rounds a sector up to the optimal-alignment grain,
`endAlign.alignDown` rounds down to one sector short of a grain multiple,
and `parted.sizeToSectors(n, "MiB", 512)` is `n * 2048`.  Partition sizes
are an inductive `PSize` standing for the strings matched by the regex
`([0-9]+)(MiB|GiB|TiB)` or the wildcard `"*"`.  Python asserts and
`None`-dereferences surface as `InitErr.crashed`; the
`raise Exception("not enough space")` as `InitErr.notEnoughSpace`.
`_erasePartitionSignature` only zeroes device bytes and is omitted from
the state. -/

structure PartedDisk where
  devStart : Nat
  devEnd : Nat
  grain : Nat
  parts : List (Nat × Nat)
deriving DecidableEq

inductive PSize where
  | mib (n : Nat)
  | gib (n : Nat)
  | tib (n : Nat)
  | star
deriving DecidableEq

inductive InitErr where
  | notEnoughSpace
  | crashed
deriving DecidableEq

/-- Free-space gaps left of the allocated partitions (assumed sorted and
disjoint), walking from `cur` up to the last usable sector `stop`. -/
def freeRegionsAux (stop : Nat) : Nat → List (Nat × Nat) → List (Nat × Nat)
  | cur, [] => if cur ≤ stop then [(cur, stop)] else []
  | cur, (s, e) :: rest =>
    (if cur < s then [(cur, s - 1)] else []) ++ freeRegionsAux stop (e + 1) rest

/-- `disk.getFreeSpaceRegions()`. -/
def freeRegions (d : PartedDisk) : List (Nat × Nat) :=
  freeRegionsAux d.devEnd d.devStart d.parts

/-- `_getFreeRegion(disk)`: skip regions no longer than the alignment
grain; crash (`none`) unless exactly one remains; clamp its start to
sector 2048. -/
def getFreeRegion (d : PartedDisk) : Option (Nat × Nat) :=
  match (freeRegions d).filter (fun p => decide (d.grain < p.2 - p.1 + 1)) with
  | [p] => some (if p.1 < 2048 then (2048, p.2) else p)
  | _ => none

/-- `constraint.startAlign.alignUp(region, s)` for the optimal-aligned
constraint with grain `g`. -/
def alignUpTo (g s : Nat) : Nat := (s + g - 1) / g * g

/-- `constraint.endAlign.alignDown(region, e)`: the largest sector `≤ e`
congruent to `g - 1` modulo `g`. -/
def alignEndDown (g e : Nat) : Nat := (e + 1) / g * g - 1

/-- `parted.sizeToSectors(n, unit, 512)` for the units admitted by the
size regex; `none` for the wildcard (whose fixed-size parse would crash). -/
def sizeToSectors : PSize → Option Nat
  | .mib n => some (n * 2048)
  | .gib n => some (n * 2048 * 1024)
  | .tib n => some (n * 2048 * 1024 * 1024)
  | .star => none

/-- `_addPartition(disk, pType, pStart, pEnd)`: the per-type dispatch with
its asserts (note the source renames "mbr" to "msdos" before this runs, so
the swap branch's `== "mbr"` test can never hold). `none` is a crashed
assert; otherwise the geometry is appended as given (start and end are
already aligned by the callers). -/
def addPartition (partitionTableType pType : String) (d : PartedDisk)
    (pStart pEnd : Nat) : Option PartedDisk :=
  let d' := { d with parts := d.parts ++ [(pStart, pEnd)] }
  if pType == "" then some d'
  else if pType == "esp" then
    (if partitionTableType == "gpt" then some d' else none)
  else if pType == "bcache" then
    (if partitionTableType == "gpt" then some d' else none)
  else if pType == "swap" then
    (if partitionTableType == "mbr" then some d'
     else if partitionTableType == "gpt" then some d'
     else none)
  else if pType == "lvm" then some d'
  else if pType == "vfat" then some d'
  else if pType == "ext2" || pType == "ext4" || pType == "xfs" then some d'
  else none

def isStar : PSize → Bool
  | .star => true
  | _ => false

/-- The `preList`/`postList` split: entries before the first wildcard, and
from it to the end; a second wildcard is an assert failure (`none`). -/
def splitStar :
    List (PSize × String) →
      Option (List (PSize × String) × List (PSize × String))
  | [] => some ([], [])
  | pe :: rest =>
    if isStar pe.1 then
      (if rest.any (fun x => isStar x.1) then none else some ([], pe :: rest))
    else
      match splitStar rest with
      | none => none
      | some (preL, postL) => some (pe :: preL, postL)

/-- The `preList` loop of `initializeDisk`: place each fixed-size entry at
the aligned start of the single free region, failing with "not enough
space" if the aligned region cannot hold it. -/
def processPre (partitionTableType : String) :
    PartedDisk → List (PSize × String) → Except InitErr PartedDisk
  | d, [] => .ok d
  | d, (pSize, pType) :: rest =>
    match getFreeRegion d with
    | none => .error .crashed
    | some region =>
      let pStart := alignUpTo d.grain region.1
      let pEnd := alignEndDown d.grain region.2
      match sizeToSectors pSize with
      | none => .error .crashed
      | some sectorNum =>
        if pEnd < pStart + sectorNum - 1 then .error .notEnoughSpace
        else
          match addPartition partitionTableType pType d pStart
              (pStart + sectorNum - 1) with
          | none => .error .crashed
          | some d' => processPre partitionTableType d' rest

/-- The `postList` loop: the wildcard entry takes the whole aligned free
region; any non-wildcard entry here is an assert failure. -/
def processPost (partitionTableType : String) :
    PartedDisk → List (PSize × String) → Except InitErr PartedDisk
  | d, [] => .ok d
  | d, (pSize, pType) :: rest =>
    match getFreeRegion d with
    | none => .error .crashed
    | some region =>
      let pStart := alignUpTo d.grain region.1
      let pEnd := alignEndDown d.grain region.2
      match pSize with
      | .star =>
        (match addPartition partitionTableType pType d pStart pEnd with
         | none => .error .crashed
         | some d' => processPost partitionTableType d' rest)
      | _ => .error .crashed

/-- `initializeDisk(devPath, partitionTableType, partitionInfoList)`:
asserted table type and nonempty plan; "mbr" renamed "msdos"; wipe the
partition table (`parted.freshDisk`), then run the pre and post loops.
Returns the final partition geometries. -/
def initializeDisk (dev : PartedDisk) (partitionTableType : String)
    (partitionInfoList : List (PSize × String)) :
    Except InitErr (List (Nat × Nat)) :=
  if !(partitionTableType == "mbr" || partitionTableType == "gpt") then
    .error .crashed
  else if partitionInfoList.isEmpty then .error .crashed
  else
    let t := if partitionTableType == "mbr" then "msdos" else partitionTableType
    match splitStar partitionInfoList with
    | none => .error .crashed
    | some (preL, postL) =>
      match processPre t { dev with parts := [] } preL with
      | .error e => .error e
      | .ok d1 =>
        match processPost t d1 postL with
        | .error e => .error e
        | .ok d2 => .ok d2.parts

/-- A fresh GPT device: usable sectors 34 up to `lastUsable`, 1 MiB
(2048-sector) optimal-alignment grain, no partitions. -/
def freshGptDisk (lastUsable : Nat) : PartedDisk :=
  { devStart := 34, devEnd := lastUsable, grain := 2048, parts := [] }



/-- The fresh device's single free region, clamped to start at 2048. -/
theorem getFreeRegion_fresh (E : Nat) (hE : 208896 ≤ E) :
    getFreeRegion ⟨34, E, 2048, []⟩ = some (2048, E) := by
  simp only [getFreeRegion, freeRegions, freeRegionsAux]
  rw [if_pos (show 34 ≤ E by omega)]
  simp only [List.filter_cons, List.filter_nil,
    decide_eq_true (show 2048 < E - 34 + 1 by omega), if_true]
  rw [if_pos (show (34:Nat) < 2048 by norm_num)]

/-- Free regions after placing the 100 MiB partition: the leading
alignment gap and the tail region. -/
theorem freeRegions_after_esp (E : Nat) (hE : 208896 ≤ E) :
    freeRegions ⟨34, E, 2048, [(2048, 206847)]⟩
      = [(34, 2047), (206848, E)] := by
  simp only [freeRegions, freeRegionsAux]
  rw [if_pos (show (34:Nat) < 2048 by norm_num),
    if_pos (show 206848 ≤ E by omega)]
  simp only [List.cons_append, List.nil_append]

/-- The leading gap (2014 sectors ≤ the 2048-sector grain) is skipped, so
the tail region is the unique free region after the fixed entries. -/
theorem filter_after_esp (E : Nat) (hE : 208896 ≤ E) :
    ([(34, 2047), (206848, E)] : List (Nat × Nat)).filter
        (fun p => decide (2048 < p.2 - p.1 + 1)) = [(206848, E)] := by
  simp only [List.filter_cons, List.filter_nil,
    decide_eq_false (show ¬(2048 < 2047 - 34 + 1) by norm_num),
    decide_eq_true (show 2048 < E - 206848 + 1 by omega),
    if_true, Bool.false_eq_true, if_false]

theorem getFreeRegion_after_esp (E : Nat) (hE : 208896 ≤ E) :
    getFreeRegion ⟨34, E, 2048, [(2048, 206847)]⟩ = some (206848, E) := by
  simp only [getFreeRegion]
  rw [freeRegions_after_esp E hE, filter_after_esp E hE]
  show some (if (206848:Nat) < 2048 then ((2048:Nat), E) else (206848, E))
    = some (206848, E)
  rw [if_neg (show ¬((206848:Nat) < 2048) by norm_num)]

/-- The pre-loop on a single fixed `n` MiB ESP entry: placed at sector
2048 unless the aligned region end cannot hold it. -/
theorem processPre_esp_mib (E : Nat) (hE : 208896 ≤ E) (n : Nat) :
    processPre "gpt" ⟨34, E, 2048, []⟩ [(PSize.mib n, "esp")]
      = if (E + 1) / 2048 * 2048 - 1 < 2048 + n * 2048 - 1 then
          .error InitErr.notEnoughSpace
        else .ok ⟨34, E, 2048, [(2048, 2048 + n * 2048 - 1)]⟩ := by
  simp only [processPre, getFreeRegion_fresh E hE, sizeToSectors, alignUpTo,
    alignEndDown]
  by_cases hlt : (E + 1) / 2048 * 2048 - 1 < 2048 + n * 2048 - 1
  · rw [if_pos hlt, if_pos hlt]
  · rw [if_neg hlt, if_neg hlt]
    rfl

/-- The post-loop: the wildcard entry takes the whole remaining region,
from right after the fixed partition to the aligned device end. -/
theorem processPost_star_ext4 (E : Nat) (hE : 208896 ≤ E) :
    processPost "gpt" ⟨34, E, 2048, [(2048, 206847)]⟩ [(PSize.star, "ext4")]
      = .ok ⟨34, E, 2048,
          [(2048, 206847), (206848, (E + 1) / 2048 * 2048 - 1)]⟩ := by
  simp only [processPost, getFreeRegion_after_esp E hE, alignUpTo,
    alignEndDown]
  rfl

/-- `initializeDisk` on the two-entry plan reduces to the pre-loop on the
fixed entry chained with the post-loop on the wildcard. -/
theorem initializeDisk_plan_step (E n : Nat) :
    initializeDisk (freshGptDisk E) "gpt"
      [(PSize.mib n, "esp"), (PSize.star, "ext4")]
    = (match processPre "gpt" ⟨34, E, 2048, []⟩ [(PSize.mib n, "esp")] with
       | .error e => .error e
       | .ok d1 =>
         match processPost "gpt" d1 [(PSize.star, "ext4")] with
         | .error e => .error e
         | .ok d2 => .ok d2.parts) := rfl

/-- **C6.**  On a sufficiently large fresh GPT device (any last usable
sector `E ≥ 208896`, i.e. about 102 MiB; an 8 GiB device has
`E = 16777182`), the plan `[("100MiB", "esp"), ("*", "ext4")]` creates
exactly two partitions: the first starts at the aligned sector 2048 and is
sized exactly 100 MiB (`sizeToSectors` of the request), the second — the
wildcard — starts right after it and consumes the entire remaining free
region up to its aligned end, which is within one alignment grain (2048
sectors) of the device end.  A fixed-size first entry exceeding the
available space (`E < F * 2048`) fails with "not enough space", creating
nothing. -/
theorem C6_partition_plan (E : Nat) (hE : 208896 ≤ E) :
    (initializeDisk (freshGptDisk E) "gpt"
        [(PSize.mib 100, "esp"), (PSize.star, "ext4")]
      = .ok [(2048, 206847), (206848, (E + 1) / 2048 * 2048 - 1)]
      ∧ sizeToSectors (PSize.mib 100) = some (206847 - 2048 + 1)
      ∧ (E + 1) / 2048 * 2048 - 1 ≤ E
      ∧ E - ((E + 1) / 2048 * 2048 - 1) < 2048)
    ∧ ∀ F : Nat, E < F * 2048 →
        initializeDisk (freshGptDisk E) "gpt"
          [(PSize.mib F, "esp"), (PSize.star, "ext4")]
        = .error InitErr.notEnoughSpace := by
  refine ⟨⟨?_, by decide, by omega, by omega⟩, ?_⟩
  · rw [initializeDisk_plan_step E 100, processPre_esp_mib E hE 100,
      if_neg (show ¬((E + 1) / 2048 * 2048 - 1 < 2048 + 100 * 2048 - 1)
        by omega)]
    norm_num
    rw [processPost_star_ext4 E hE]
  · intro F hF
    rw [initializeDisk_plan_step E F, processPre_esp_mib E hE F,
      if_pos (show (E + 1) / 2048 * 2048 - 1 < 2048 + F * 2048 - 1 by omega)]

/-- Witness for `C6_partition_plan` on an 8 GiB device (last usable sector
16777182): the 100 MiB + wildcard plan succeeds with the two stated
partitions, and a fixed 8 GiB ESP request fails with "not enough space". -/
theorem C6_witness :
    208896 ≤ 16777182
      ∧ initializeDisk (freshGptDisk 16777182) "gpt"
          [(PSize.mib 100, "esp"), (PSize.star, "ext4")]
        = .ok [(2048, 206847), (206848, 16775167)]
      ∧ initializeDisk (freshGptDisk 16777182) "gpt"
          [(PSize.mib 16777216, "esp"), (PSize.star, "ext4")]
        = .error InitErr.notEnoughSpace := by
  have h := C6_partition_plan 16777182 (by norm_num)
  refine ⟨by norm_num, ?_, h.2 16777216 (by norm_num)⟩
  have h1 := h.1.1
  norm_num at h1
  exact h1

/-! ### `create_layout` of the single-disk BIOS+ext4 variant
(layout_bios_ext4.py lines 74-93). -/

inductive CreateErr where
  | noDisk
  | multipleDisks
deriving DecidableEq

structure BiosExt4Layout where
  hdd : List Char
  hddRootParti : List Char
deriving DecidableEq

/-- Outcome of `create_layout`: a built layout object together with the
`Util.initializeDisk` request it issued (none under `dry_run`), a
`StorageLayoutCreateError`, or a crashed assert
(`Util.devPathDiskToPartition` on an unrecognized disk path). -/
inductive CreateResult where
  | created (layout : BiosExt4Layout)
      (initPlan : Option (List Char × String × List (PSize × String)))
  | createError (e : CreateErr)
  | crashed
deriving DecidableEq

/-- `create_layout(hdd=None, dry_run=False)`: when no disk is named, the
fixed-disk inventory must hold exactly one disk (`NO_DISK` /
`MULTIPLE_DISKS` otherwise); the chosen disk gets the mbr plan
`[("*", ext4)]` unless `dry_run`, and the layout records the disk and its
first partition.  A named disk is used as given — the inventory is never
consulted for it. -/
def create_layout (fixedHdds : List (List Char)) (hdd0 : Option (List Char))
    (dry_run : Bool) : CreateResult :=
  let pick : Except CreateErr (List Char) :=
    match hdd0 with
    | some h => .ok h
    | none =>
      match fixedHdds with
      | [] => .error CreateErr.noDisk
      | [h] => .ok h
      | _ => .error CreateErr.multipleDisks
  match pick with
  | .error e => .createError e
  | .ok h =>
    let plan := if dry_run then none
      else some (h, "mbr", [(PSize.star, "ext4")])
    match devPathDiskToPartition h 1 with
    | none => .crashed
    | some p => .created ⟨h, p⟩ plan

/-- **C9 counterexample.**  With inventory `["/dev/sda"]`, naming the
absent disk `/dev/sdb` does not raise a create error: `create_layout`
succeeds and builds the layout on `/dev/sdb` (dry run shown; a wet run
would likewise proceed, issuing the partition plan for `/dev/sdb`). -/
theorem natToDigits_one : natToDigits 1 = ['1'] := by
  unfold natToDigits
  rw [if_neg (by norm_num),
    Nat.digits_def' (show (1:Nat) < 10 by norm_num) (show 0 < 1 by norm_num)]
  norm_num

/-- `Util.devPathDiskToPartition("/dev/sdb", 1)` is `/dev/sdb1`. -/
theorem devPathDiskToPartition_sdb : devPathDiskToPartition (sdPre ++ ['b']) 1
    = some (sdPre ++ ['b', '1']) := by
  simp only [devPathDiskToPartition]
  rw [if_pos (show matchDiskAlpha sdPre (sdPre ++ ['b']) = true by decide),
    natToDigits_one]
  decide

theorem C9_counterexample :
    (sdPre ++ ['b']) ∉ [sdPre ++ ['a']]
      ∧ create_layout [sdPre ++ ['a']] (some (sdPre ++ ['b'])) true
        = CreateResult.created ⟨sdPre ++ ['b'], sdPre ++ ['b', '1']⟩ none := by
  refine ⟨by decide, ?_⟩
  simp only [create_layout, devPathDiskToPartition_sdb, if_true]

/-- **C9.**  Amended: `create_layout` fails with a
`StorageLayoutCreateError` exactly when no disk is named and the
fixed-disk inventory does not hold exactly one disk (empty → `NO_DISK`,
two or more → `MULTIPLE_DISKS`); an explicitly named disk is accepted
without any inventory membership check. -/
theorem C9_create_layout_error_iff (fixedHdds : List (List Char))
    (hdd0 : Option (List Char)) (dry : Bool) :
    (∃ e, create_layout fixedHdds hdd0 dry = CreateResult.createError e)
      ↔ hdd0 = none ∧ fixedHdds.length ≠ 1 := by
  cases hdd0 with
  | some h =>
    simp only [create_layout]
    constructor
    · rintro ⟨e, he⟩
      rcases hd : devPathDiskToPartition h 1 with _ | p <;>
        rw [hd] at he <;> exact CreateResult.noConfusion he
    · rintro ⟨h1, _⟩
      exact Option.noConfusion h1
  | none =>
    match fixedHdds with
    | [] =>
      simp only [create_layout]
      exact ⟨fun _ => ⟨by trivial, by decide⟩, fun _ => ⟨CreateErr.noDisk, rfl⟩⟩
    | [h] =>
      simp only [create_layout]
      constructor
      · rintro ⟨e, he⟩
        rcases hd : devPathDiskToPartition h 1 with _ | p <;>
          rw [hd] at he <;> exact CreateResult.noConfusion he
      · rintro ⟨_, hlen⟩
        exact absurd rfl hlen
    | a :: b :: t =>
      simp only [create_layout]
      refine ⟨fun _ => ⟨by trivial, ?_⟩,
        fun _ => ⟨CreateErr.multipleDisks, rfl⟩⟩
      simp only [List.length_cons]
      omega

/-! ### The cache-group layout's `add_disk` / `remove_disk`
(layout_efi_bcache_lvm_ext4.py lines 162-234).

The layout delegates group bookkeeping to `EfiCacheGroup`, `Bcache` and
`MountEfi` from `handy.py`, which is absent from `src/`.  The group state
and its update rules are `Modelled from the spec:` a cache-group holds at
most one cache (solid-state) disk, an ordered list of backing (rotating)
disks and at most one boot disk; `add_hdd` makes the new disk the boot
disk only when none exists; `remove_ssd` and `remove_hdd` promote the
first remaining backing disk when the boot disk goes away.  External
actions (ESP mounts, partitioning, bcache and LVM commands) are recorded
as an effect trace; "leaves the state unchanged" is: same state, empty
trace. -/

structure CgState where
  ssd : Option String
  hddList : List String
  bootDisk : Option String
deriving DecidableEq

inductive CgEffect where
  | umountEsp (p : String)
  | mountEsp (p : String)
  | addSsdPartition (d : String)
  | addHddPartition (d : String)
  | bcacheAddCache (p : String)
  | bcacheAddBacking (cache : Option String) (disk dataParti : String)
  | bcacheRemoveCache (p : String)
  | bcacheRemoveBacking (d : String)
  | lvmAddPv (pv : String)
  | lvmPvmove (pv : String)
  | lvmVgReduce (pv : String)
deriving DecidableEq

/-- The layout's environment: `Util.getDevPathListForFixedDisk()`,
`Util.isBlkDevSsdOrHdd`, `Util.isSwapFileOrPartitionBusy`, the return code
of `lvm pvmove`, and the partition/composed-device lookups served by
`EfiCacheGroup` and `Bcache`. -/
structure DiskEnv where
  fixedDisks : List String
  isSsd : String → Bool
  swapBusy : String → Bool
  pvmoveRc : String → Nat
  ssdEspParti : String → String
  ssdSwapParti : String → Option String
  ssdCacheParti : String → String
  hddEspParti : String → String
  hddDataParti : String → String
  bcacheDev : String → String

inductive AddErr where
  | notDisk
deriving DecidableEq

inductive RemoveErr where
  | swapInUse
  | lastHdd
  | pvmoveFailed
  | crashed
deriving DecidableEq

/-- `add_disk(disk)`: refuse a non-fixed disk; a solid-state disk becomes
the cache disk (moving the active ESP mount to it, always "boot
changed"); a rotating disk is partitioned, composed against the cache (if
any), added to the volume group, and becomes the boot disk — mounting its
ESP and returning True — exactly when the group had none. -/
def add_disk (env : DiskEnv) (st : CgState) (disk : String) :
    CgState × List CgEffect × Except AddErr Bool :=
  if !(env.fixedDisks.contains disk) then (st, [], .error .notDisk)
  else if env.isSsd disk then
    let preEffs : List CgEffect :=
      match st.bootDisk with
      | some b => [.umountEsp (env.hddEspParti b)]
      | none => []
    ({ st with ssd := some disk, bootDisk := some disk },
     preEffs ++ [.addSsdPartition disk,
       .bcacheAddCache (env.ssdCacheParti disk),
       .mountEsp (env.ssdEspParti disk)], .ok true)
  else
    let newBoot : Option String :=
      match st.bootDisk with
      | none => some disk
      | some b => some b
    let st1 : CgState :=
      { st with hddList := st.hddList ++ [disk], bootDisk := newBoot }
    let effs : List CgEffect := [.addHddPartition disk,
      .bcacheAddBacking (st.ssd.map env.ssdCacheParti) disk
        (env.hddDataParti disk),
      .lvmAddPv (env.bcacheDev disk)]
    if newBoot = some disk then
      (st1, effs ++ [.mountEsp (env.hddEspParti disk)], .ok true)
    else (st1, effs, .ok false)

/-- `remove_disk(disk)`: removing the cache disk refuses while its swap
partition is busy, else tears the cache down and promotes a backing disk
to boot; removing a backing disk refuses when it is the last one, else
unmounts its ESP if it was the boot disk, evacuates and drops its
physical volume (`pvmove` return code 5 expected, "failed" otherwise),
tears down its composition and promotes the next disk.  A disk that is
neither the cache nor a backing disk hits the final `assert False`. -/
def remove_disk (env : DiskEnv) (st : CgState) (disk : String) :
    CgState × List CgEffect × Except RemoveErr Bool :=
  if st.ssd = some disk then
    if (match env.ssdSwapParti disk with
        | some sw => env.swapBusy sw
        | none => false) then (st, [], .error .swapInUse)
    else
      let st1 : CgState :=
        { st with ssd := none, bootDisk := st.hddList.head? }
      let effs : List CgEffect := [.umountEsp (env.ssdEspParti disk),
        .bcacheRemoveCache (env.ssdCacheParti disk)]
      match st1.bootDisk with
      | some b => (st1, effs ++ [.mountEsp (env.hddEspParti b)], .ok true)
      | none => (st1, effs, .ok false)
  else if st.hddList.contains disk then
    if st.hddList.length ≤ 1 then (st, [], .error .lastHdd)
    else
      let effs1 : List CgEffect :=
        if st.bootDisk = some disk then [.umountEsp (env.hddEspParti disk)]
        else []
      if env.pvmoveRc (env.bcacheDev disk) ≠ 5 then
        (st, effs1 ++ [.lvmPvmove (env.bcacheDev disk)], .error .pvmoveFailed)
      else
        let rest := st.hddList.erase disk
        let st1 : CgState :=
          { st with
            hddList := rest
            bootDisk := (if st.bootDisk = some disk then rest.head?
              else st.bootDisk) }
        let effs : List CgEffect := effs1 ++ [.lvmPvmove (env.bcacheDev disk),
          .lvmVgReduce (env.bcacheDev disk), .bcacheRemoveBacking disk]
        if st.bootDisk = some disk then
          match rest.head? with
          | some b => (st1, effs ++ [.mountEsp (env.hddEspParti b)], .ok true)
          | none => (st1, effs, .error .crashed)
        else (st1, effs, .ok false)
  else (st, [], .error .crashed)

/-- **C7.**  `remove_disk` refuses with a `StorageLayoutRemoveDiskError`
and leaves the group state completely unchanged (same state, no external
effects) when (a) the target is the cache disk and its swap partition
exists and is reported busy (`SWAP_IS_IN_USE`), or (b) the target is the
sole remaining backing disk (`CAN_NOT_REMOVE_LAST_HDD`). -/
theorem C7_remove_disk_refusals (env : DiskEnv) (st : CgState)
    (disk sw : String) :
    (st.ssd = some disk → env.ssdSwapParti disk = some sw →
      env.swapBusy sw = true →
      remove_disk env st disk = (st, [], .error RemoveErr.swapInUse))
    ∧ (st.ssd ≠ some disk → st.hddList = [disk] →
      remove_disk env st disk = (st, [], .error RemoveErr.lastHdd)) := by
  constructor
  · intro hssd hsw hbusy
    unfold remove_disk
    rw [if_pos hssd, hsw]
    simp only [hbusy, if_true]
  · intro hssd hhdd
    unfold remove_disk
    rw [if_neg hssd, hhdd]
    rw [if_pos (show List.contains [disk] disk = true by
      simp [List.contains_cons])]
    rw [if_pos (show List.length [disk] ≤ 1 by simp)]

/-- A concrete environment and state for the C7 witness: cache disk
`/dev/sda` with busy swap partition `/dev/sda2`, one backing disk
`/dev/sdb`. -/
def envC7 : DiskEnv :=
  { fixedDisks := ["/dev/sda", "/dev/sdb"]
    isSsd := fun d => d == "/dev/sda"
    swapBusy := fun _ => true
    pvmoveRc := fun _ => 5
    ssdEspParti := fun d => d ++ "1"
    ssdSwapParti := fun d => some (d ++ "2")
    ssdCacheParti := fun d => d ++ "3"
    hddEspParti := fun d => d ++ "1"
    hddDataParti := fun d => d ++ "2"
    bcacheDev := fun _ => "/dev/bcache0" }

def stC7 : CgState :=
  { ssd := some "/dev/sda"
    hddList := ["/dev/sdb"]
    bootDisk := some "/dev/sda" }

/-- Witness for `C7_remove_disk_refusals`: both refusals fire on the
concrete group, returning the state untouched with an empty effect
trace. -/
theorem C7_witness :
    remove_disk envC7 stC7 "/dev/sda"
        = (stC7, [], .error RemoveErr.swapInUse)
      ∧ remove_disk envC7 stC7 "/dev/sdb"
        = (stC7, [], .error RemoveErr.lastHdd) :=
  ⟨(C7_remove_disk_refusals envC7 stC7 "/dev/sda" "/dev/sda2").1 rfl rfl rfl,
   (C7_remove_disk_refusals envC7 stC7 "/dev/sdb" "").2 (by decide) rfl⟩

/-- **C8.**  For a rotating (non-solid-state) fixed disk that is not
already the boot disk, `add_disk` leaves an existing boot disk in place
and otherwise makes the new disk the boot disk, and its returned "boot
target changed" flag is true exactly when the group had no boot disk
before the call; in particular, adding a second rotating disk to a group
that already has a boot disk returns false. -/
theorem C8_add_disk_boot_flag (env : DiskEnv) (st : CgState) (disk : String)
    (hfixed : env.fixedDisks.contains disk = true)
    (hrot : env.isSsd disk = false)
    (hnb : st.bootDisk ≠ some disk) :
    (add_disk env st disk).1.bootDisk = some (st.bootDisk.getD disk)
      ∧ (add_disk env st disk).2.2 = .ok st.bootDisk.isNone := by
  unfold add_disk
  rw [hfixed]
  simp only [Bool.not_true, Bool.false_eq_true, if_false, hrot]
  cases hb : st.bootDisk with
  | none =>
    rw [if_pos rfl]
    exact ⟨rfl, rfl⟩
  | some b =>
    rw [if_neg (show ¬(some b = some disk) from
      fun h => hnb (hb ▸ h))]
    exact ⟨rfl, rfl⟩

def envC8 : DiskEnv :=
  { envC7 with fixedDisks := ["/dev/sda", "/dev/sdb", "/dev/sdc"] }

def stC8 : CgState :=
  { ssd := some "/dev/sda"
    hddList := ["/dev/sdb"]
    bootDisk := some "/dev/sdb" }

/-- Witness for `C8_add_disk_boot_flag`: adding the rotating disk
`/dev/sdc` (not in `stC8.hddList`; boot disk `/dev/sdb` already present)
keeps `/dev/sdb` as boot disk and returns the flag `False`; on the
bootless variant of the same group the new disk becomes the boot disk
and the flag is `True`. -/
theorem C8_witness :
    ((add_disk envC8 stC8 "/dev/sdc").1.bootDisk = some "/dev/sdb"
      ∧ (add_disk envC8 stC8 "/dev/sdc").2.2 = .ok false)
    ∧ ((add_disk envC8 { stC8 with bootDisk := none } "/dev/sdc").1.bootDisk
        = some "/dev/sdc"
      ∧ (add_disk envC8 { stC8 with bootDisk := none } "/dev/sdc").2.2
        = .ok true) :=
  ⟨C8_add_disk_boot_flag envC8 stC8 "/dev/sdc" (by decide) (by decide)
     (by decide),
   C8_add_disk_boot_flag envC8 { stC8 with bootDisk := none } "/dev/sdc"
     (by decide) (by decide) (by decide)⟩

end StrictHdds
